import Mathlib

/-!
Verification development for the MCPServers Workday identity bridge.

This file gives a shallow embedding, in Lean 4, of the Python code in
`src/mcp_servers`: the Entra token validator (`auth/entra.py`), the Workday
delegated-credential provider (`auth/tokens.py`), the worker-context helpers
(`workday/helpers.py`) and the Workday tool entry points (`workday/tools.py`).
External HTTP endpoints (Entra, Microsoft Graph, the Workday token endpoint and
the Workday REST API) are modelled as oracles collected in an `Env` record;
each embedded function returns an `Except Err` result together with a trace of
the outbound network calls it performed, so that ordering and fail-fast
properties can be stated.

Python dynamic values decoded from JSON are modelled by `JVal`; Python
truthiness, `str()`, `dict.get`, indexing and iteration are modelled by the
`py_*` helpers below, each annotated with the Python behaviour it mirrors.
All string manipulation is done on character lists so that every definition
evaluates inside the kernel.
-/

/-! ## Python string primitives (character-list based) -/

/-- Split a character list at every occurrence of a separator character.
Mirrors Python `s.split(sep)` for a one-character `sep` (empty pieces kept). -/
def split_char (sep : Char) : List Char → List (List Char)
  | [] => [[]]
  | c :: rest =>
    let r := split_char sep rest
    if c = sep then [] :: r
    else
      match r with
      | [] => [[c]]
      | g :: gs => (c :: g) :: gs

/-- Python `s.split(sep)` for a one-character separator. -/
def py_split (s : String) (sep : Char) : List String :=
  (split_char sep s.toList).map String.mk

/-- Split at the first occurrence of a character; `none` when absent.
Mirrors Python `s.split(sep, 1)` (which yields one piece when `sep` is
absent, so indexing `[1]` would raise). -/
def split_once_char (sep : Char) : List Char → Option (List Char × List Char)
  | [] => none
  | c :: rest =>
    if c = sep then some ([], rest)
    else (split_once_char sep rest).map (fun p => (c :: p.1, p.2))

def chars_is_prefix_of : List Char → List Char → Bool
  | [], _ => true
  | _, [] => false
  | a :: as, b :: bs => a = b && chars_is_prefix_of as bs

/-- Python `needle in hay` on strings (substring containment). -/
def chars_contains_sub (needle : List Char) : List Char → Bool
  | [] => needle.isEmpty
  | c :: rest => chars_is_prefix_of needle (c :: rest) || chars_contains_sub needle rest

def py_in_str (needle hay : String) : Bool :=
  chars_contains_sub needle.toList hay.toList

/-- Python `s.lower()` (ASCII; the headers and units compared in this code
are ASCII). -/
def py_lower (s : String) : String :=
  String.mk (s.toList.map Char.toLower)

/-- Python `s.startswith(p)`. -/
def py_startswith (s p : String) : Bool :=
  chars_is_prefix_of p.toList s.toList

def py_is_space (c : Char) : Bool :=
  c = ' ' || c = '\t' || c = '\n' || c = '\r' || c = '\x0b' || c = '\x0c'

/-- Python `s.strip()`. -/
def py_strip (s : String) : String :=
  String.mk (((s.toList.dropWhile py_is_space).reverse.dropWhile py_is_space).reverse)

/-! ## JSON-decoded Python values -/

/-- A Python float, kept as an exact unnormalised fraction so that all
arithmetic is kernel-computable. IEEE-754 rounding is not modelled; no claim
in this development depends on float arithmetic. -/
structure PFloat where
  num : Int
  den : Nat
deriving DecidableEq, Repr

def PFloat.add (a b : PFloat) : PFloat :=
  ⟨a.num * (b.den : Int) + b.num * (a.den : Int), a.den * b.den⟩

/-- A Python value decoded from JSON (plus `f` for floats). `null` doubles
as Python `None`. -/
inductive JVal where
  | null : JVal
  | b : Bool → JVal
  | n : Int → JVal
  | f : PFloat → JVal
  | s : String → JVal
  | list : List JVal → JVal
  | obj : List (String × JVal) → JVal
deriving Repr

deriving instance DecidableEq for Except

/-- JWT claim payloads (`jwt.decode` always yields a `dict`), modelled as an
association list from claim name to value, first binding wins. -/
abbrev Claims := List (String × JVal)

/-- Lookup in an association-list dict, mirroring Python `d.get(k)` /
`d[k]` presence. -/
def assoc_get (fs : List (String × JVal)) (k : String) : Option JVal :=
  (fs.find? (fun p => p.1 = k)).map (·.2)

/-- `payload.get(k)` on a claims dict. -/
def claim_get (payload : Claims) (k : String) : Option JVal :=
  assoc_get payload k

/-- Python truthiness of a JSON-decoded value: `None`, `False`, `0`, `0.0`,
`""`, `[]` and `\x7b\x7d` are falsy, everything else truthy. -/
def truthy : JVal → Bool
  | .null => false
  | .b v => v
  | .n v => v ≠ 0
  | .f v => v.num ≠ 0
  | .s v => v ≠ ""
  | .list vs => ¬ vs.isEmpty
  | .obj fs => ¬ fs.isEmpty

/-- Truthiness of an optional value (`None` for `none`). -/
def truthyO : Option JVal → Bool
  | none => false
  | some v => truthy v

/-- Truthiness of an optional Python string argument (`None` or `""` falsy). -/
def truthyOS : Option String → Bool
  | none => false
  | some v => v ≠ ""

/-- Python `a or b` over optional values: `b` when `a` is absent or falsy. -/
def py_or (a b : Option JVal) : Option JVal :=
  match a with
  | some v => if truthy v then some v else b
  | none => b

/-- Rendering of a fraction standing in for a Python float (used only when a
float leaks into `str()`; the exact float `repr` algorithm is not modelled). -/
def ratRepr (q : PFloat) : String :=
  if q.den = 1 then toString q.num ++ ".0" else toString q.num ++ "/" ++ toString q.den

/-- Python `repr()` of a JSON-decoded value (strings get single quotes;
quote/backslash escaping inside strings is not modelled — no claim
exercises it). -/
def pyRepr : JVal → String
  | .null => "None"
  | .b true => "True"
  | .b false => "False"
  | .n v => toString v
  | .f v => ratRepr v
  | .s v => "'" ++ v ++ "'"
  | .list vs => "[" ++ String.intercalate ", " (reprList vs) ++ "]"
  | .obj fs => "\x7b" ++ String.intercalate ", " (reprFields fs) ++ "\x7d"
where
  reprList : List JVal → List String
    | [] => []
    | v :: vs => pyRepr v :: reprList vs
  reprFields : List (String × JVal) → List String
    | [] => []
    | (k, v) :: fs => ("'" ++ k ++ "': " ++ pyRepr v) :: reprFields fs

/-- Python `str()` of a JSON-decoded value: the string itself for strings,
`repr` rendering for containers, the usual spellings for scalars. -/
def pyStr : JVal → String
  | .s v => v
  | v => pyRepr v

/-- Errors raised by the embedded code. Python exception classes are mapped
one-to-one: `valueError` is `ValueError` (this code base raises its
credential / identity / downstream errors as `ValueError`),
`tokenValidation` is `TokenValidationError`, `lookupError` is `LookupError`,
`httpException` carries the message of an `httpx` transport/status/JSON
exception surfaced by an oracle, `retryError` is `tenacity.RetryError`
wrapping the last attempt's failure, and the remaining constructors are the
corresponding Python built-in exceptions. -/
inductive AttemptErr where
  | httpStatus : Nat → AttemptErr
  | connectionError : AttemptErr
  | timeout : AttemptErr
  | jsonError : String → AttemptErr
  | keyError : String → AttemptErr
  | typeError : AttemptErr
deriving DecidableEq, Repr

inductive Err where
  | valueError : String → Err
  | tokenValidation : String → Err
  | lookupError : String → Err
  | httpException : String → Err
  | keyError : String → Err
  | indexError : Err
  | attributeError : Err
  | typeError : Err
  | retryError : AttemptErr → Err
deriving DecidableEq, Repr

/-- `v.get(k)` — `AttributeError` unless `v` is a dict. -/
def py_get (v : JVal) (k : String) : Except Err (Option JVal) :=
  match v with
  | .obj fs => .ok (assoc_get fs k)
  | _ => .error .attributeError

/-- `v.get(k, d)` — `AttributeError` unless `v` is a dict. -/
def py_getD (v : JVal) (k : String) (d : JVal) : Except Err JVal :=
  match v with
  | .obj fs => .ok ((assoc_get fs k).getD d)
  | _ => .error .attributeError

/-- `v[0]`: head of a list (`IndexError` when empty), first character of a
string, `KeyError` on a dict (JSON object keys are strings, never `0`),
`TypeError` otherwise. -/
def py_index0 (v : JVal) : Except Err JVal :=
  match v with
  | .list [] => .error .indexError
  | .list (x :: _) => .ok x
  | .s v => match v.toList with
    | [] => .error .indexError
    | c :: _ => .ok (.s (String.mk [c]))
  | .obj _ => .error (.keyError "0")
  | _ => .error .typeError

/-- `for x in v`: lists yield elements, strings yield characters, dicts yield
keys, everything else raises `TypeError`. -/
def py_iter (v : JVal) : Except Err (List JVal) :=
  match v with
  | .list vs => .ok vs
  | .s v => .ok (v.toList.map (fun c => .s (String.mk [c])))
  | .obj fs => .ok (fs.map (fun p => .s p.1))
  | _ => .error .typeError

/-- `len(v)` for lists, strings and dicts; `TypeError` otherwise. -/
def py_len (v : JVal) : Except Err Nat :=
  match v with
  | .list vs => .ok vs.length
  | .s v => .ok v.toList.length
  | .obj fs => .ok fs.length
  | _ => .error .typeError

/-- Parse a non-empty all-digit character list as a natural number. -/
def parse_digits (cs : List Char) : Option Nat :=
  if cs.isEmpty || ¬ cs.all Char.isDigit then none
  else some (cs.foldl (fun acc c => acc * 10 + (c.toNat - '0'.toNat)) 0)

/-- `float(s)` on a decimal string `[+|-]digits[.digits]`; scientific
notation and the special float spellings are not modelled (no claim feeds
them in). Mirrors `ValueError` on anything else. -/
def py_float_of_string (v : String) : Except Err PFloat :=
  let t := py_strip v
  let (sgn, body) :=
    if py_startswith t "-" then ((-1 : Int), String.mk (t.toList.drop 1))
    else if py_startswith t "+" then ((1 : Int), String.mk (t.toList.drop 1))
    else ((1 : Int), t)
  let res : Option PFloat :=
    match py_split body '.' with
    | [w] => (parse_digits w.toList).map (fun i => ⟨(i : Int), 1⟩)
    | [w, fr] =>
      match parse_digits w.toList, parse_digits fr.toList with
      | some i, some fpart =>
        some ⟨(i : Int) * (10 : Int) ^ fr.toList.length + (fpart : Int), (10 : Nat) ^ fr.toList.length⟩
      | _, _ => none
    | _ => none
  match res with
  | some q => .ok ⟨sgn * q.num, q.den⟩
  | none => .error (.valueError ("could not convert string to float: '" ++ v ++ "'"))

/-- `float(v)` on a JSON-decoded value. -/
def py_float (v : JVal) : Except Err PFloat :=
  match v with
  | .s v => py_float_of_string v
  | .n i => .ok ⟨i, 1⟩
  | .f q => .ok q
  | .b true => .ok ⟨1, 1⟩
  | .b false => .ok ⟨0, 1⟩
  | _ => .error .typeError

/-- Convert a Python optional to the value stored in a result dict
(`None` becomes JSON null). -/
def optToNull (v : Option JVal) : JVal := v.getD .null

/-- Dict assignment `d[k] = v`: replace in place when the key exists,
append otherwise (Python dicts keep insertion order). -/
def obj_set (fs : List (String × JVal)) (k : String) (v : JVal) : List (String × JVal) :=
  match fs with
  | [] => [(k, v)]
  | (k', v') :: rest =>
    if k' = k then (k', v) :: rest else (k', v') :: obj_set rest k v

/-! ## Network events and the environment (external endpoints as oracles) -/

/-- An outbound network call performed by the embedded code. -/
inductive Ev where
  | validate : Ev
  | graphTokenRequest : Ev
  | graphLookup : String → Ev
  | credentialExchange : Ev
  | workerSearch : Ev
  | fetch : String → Ev
  | learningSearch : Ev
  | lessonsFetch : String → Ev
  | timeOffPost : Ev
  | titlePost : Ev
deriving DecidableEq, Repr

/-- Result of one HTTP round trip against the Workday token endpoint:
either a response (with status and the outcome of `response.json()`), or a
transport-level failure. -/
inductive HttpResult where
  | response : Nat → Except String JVal → HttpResult
  | connectionError : HttpResult
  | timeout : HttpResult

/-- The two fields of the Microsoft Graph user resource that
`get_employee_id_from_graph` reads (requested via
`$select=employeeId,userPrincipalName,id`); both are string-typed in Graph. -/
structure GraphUser where
  employeeId : Option String
  userPrincipalName : Option String

/-- Response captured by `tool_book_leave`'s POST to `requestTimeOff`:
status code, `content-type` header, `response.json()` outcome and
`response.text`. -/
structure MutResponse where
  status : Nat
  content_type : String
  json_body : Except String JVal
  text : String

/-- The subset of `SharedAuthSettings` that `EntraTokenValidator` reads. -/
structure SharedAuthSettings where
  aad_app_client_id : String
  aad_app_tenant_id : String

/-- The inbound HTTP request as seen by `_get_auth_token`: its header
multimap. Header lookup is case-insensitive (Starlette lower-cases keys). -/
structure Request where
  headers : List (String × String)

def header_get (r : Request) (k : String) : Option String :=
  (r.headers.find? (fun p => py_lower p.1 = k)).map (·.2)

/-- The external world: one oracle per endpoint the code calls.
`decode` stands for `jwks_client.get_signing_key_from_jwt` plus `jwt.decode`
(signature, audience and issuer verification): `.ok` returns the claim
payload, `.error` is the exception message that `validate_with_options`
wraps in a `TokenValidationError`. `token_endpoint` is indexed by the
attempt number (1-based) so retry behaviour can be observed. `today` models
`datetime.utcnow().date()`. `business` oracles return the raw JSON bodies
of the Workday REST endpoints. -/
structure Env where
  decode : String → Except String Claims
  settings : SharedAuthSettings
  graph_token : Except String String
  graph_user : String → Except String GraphUser
  token_endpoint : Nat → HttpResult
  worker_search : String → Except String JVal
  fetch_json : String → Except String JVal
  learning_content : List (String × String) → Except String JVal
  lessons : String → Except String JVal
  time_off_post : String → JVal → Except String MutResponse
  title_post : String → JVal → Except String JVal
  today : Nat × Nat × Nat

/-! ## auth/entra.py — EntraTokenValidator -/

/-- `TokenValidationOptions` (dataclass in `auth/entra.py`). -/
structure TokenValidationOptions where
  audience : String
  issuer : String
  scopes : List String
  allowed_tenants : List String

/-- The Python object `_extract_scopes` evaluates to: a list of strings
(`scp` present and a string, split on spaces), a list of raw values (the
`roles` claim, wrapped in a singleton when not a list, or the empty default),
or the raw non-string `scp` value passed through unchanged. -/
inductive ScopesObj where
  | strs : List String → ScopesObj
  | vals : List JVal → ScopesObj
  | rawv : JVal → ScopesObj

/-- `EntraTokenValidator._extract_scopes` (auth/entra.py lines 90-101):
`scp` wins when present (split on `" "` when a string, otherwise passed
through raw); otherwise `roles` (wrapped in a list when not one); otherwise
the empty list. -/
def _extract_scopes (payload : Claims) : ScopesObj :=
  match claim_get payload "scp" with
  | some (.s raw) => .strs (py_split raw ' ')
  | some v => .rawv v
  | none =>
    match claim_get payload "roles" with
    | some (.list vs) => .vals vs
    | some v => .vals [v]
    | none => .vals []

/-- Python `==` between a str and a JSON-decoded value. -/
def py_eq_str (v : JVal) (t : String) : Bool :=
  match v with
  | .s u => u = t
  | _ => false

/-- Python `scope in scopes` for one required scope against the object
`_extract_scopes` produced: string-list membership, element-wise `==` on a
raw list, key membership on a dict, substring test on a string, and
`TypeError` on a non-iterable. -/
def scope_in (scope : String) : ScopesObj → Except Err Bool
  | .strs l => .ok (l.contains scope)
  | .vals l => .ok (l.any (fun v => py_eq_str v scope))
  | .rawv v =>
    match v with
    | .list vs => .ok (vs.any (fun x => py_eq_str x scope))
    | .obj fs => .ok (fs.any (fun p => p.1 = scope))
    | .s str => .ok (py_in_str scope str)
    | _ => .error .typeError

/-- `any(scope in scopes for scope in options.scopes)`, propagating a
`TypeError` raised by the first membership test. -/
def any_scope (req : List String) (sv : ScopesObj) : Except Err Bool :=
  match req with
  | [] => .ok false
  | sc :: rest =>
    match scope_in sc sv with
    | .error e => .error e
    | .ok true => .ok true
    | .ok false => any_scope rest sv

/-- The tenant gate of `validate_with_options`:
`"tid" in payload and payload["tid"] in options.allowed_tenants`. -/
def tid_allowed (payload : Claims) (allowed : List String) : Bool :=
  match claim_get payload "tid" with
  | none => false
  | some v => allowed.any (fun t => py_eq_str v t)

/-- `EntraTokenValidator.validate_with_options` (auth/entra.py lines 53-77).
The try-block (JWKS key lookup + `jwt.decode` with audience and issuer) is
the `decoded` oracle outcome; any exception there is wrapped in
`TokenValidationError(str(exc))`. Then the tenant gate, then the scope gate
(skipped when `options.scopes` is empty, since `options.scopes and ...` is
falsy). -/
def validate_with_options (decoded : Except String Claims)
    (options : TokenValidationOptions) : Except Err Claims :=
  match decoded with
  | .error msg => .error (.tokenValidation msg)
  | .ok payload =>
    if ¬ tid_allowed payload options.allowed_tenants then
      .error (.tokenValidation "Token tenant is not allowed")
    else
      if options.scopes.isEmpty then .ok payload
      else
        match any_scope options.scopes (_extract_scopes payload) with
        | .error e => .error e
        | .ok true => .ok payload
        | .ok false => .error (.tokenValidation "Token scope missing required permissions")

/-- `EntraTokenValidator.validate` (auth/entra.py lines 44-51): builds the
options from the shared settings — audience is the app client id, issuer the
v2.0 tenant issuer, required scopes `["workday_read"]`, allowed tenants the
app tenant — and delegates to `validate_with_options`. -/
def entra_validate (decoded : Except String Claims) (st : SharedAuthSettings) :
    Except Err Claims :=
  validate_with_options decoded
    { audience := st.aad_app_client_id
      issuer := "https://login.microsoftonline.com/" ++ st.aad_app_tenant_id ++ "/v2.0"
      scopes := ["workday_read"]
      allowed_tenants := [st.aad_app_tenant_id] }

/-! ## auth/tokens.py — WorkdayTokenProvider -/

/-- `OAuthToken` (auth/tokens.py lines 17-21). The fields hold whatever the
endpoint's JSON carried, unconverted (Python performs no casts here). -/
structure OAuthToken where
  access_token : JVal
  token_type : JVal
  expires_in : Option JVal

/-- One attempt of the body of `WorkdayTokenProvider.get_access_token`
(auth/tokens.py lines 31-54): POST the refresh-token grant,
`raise_for_status()` (httpx raises on any non-2xx status), `response.json()`,
then build the `OAuthToken` from `payload["access_token"]` (`KeyError` when
absent — `payload` must be a dict, else `TypeError`),
`payload.get("token_type", "Bearer")` and `payload.get("expires_in")`. -/
def token_attempt (r : HttpResult) : Except AttemptErr OAuthToken :=
  match r with
  | .connectionError => .error .connectionError
  | .timeout => .error .timeout
  | .response st body =>
    if st < 200 ∨ 300 ≤ st then .error (.httpStatus st)
    else
      match body with
      | .error m => .error (.jsonError m)
      | .ok (.obj fs) =>
        match assoc_get fs "access_token" with
        | none => .error (.keyError "access_token")
        | some tok =>
          .ok { access_token := tok
                token_type := (assoc_get fs "token_type").getD (.s "Bearer")
                expires_in := assoc_get fs "expires_in" }
      | .ok _ => .error .typeError

/-- The tenacity retry loop around `get_access_token`:
`@retry(wait=wait_exponential(min=1, max=8), stop=stop_after_attempt(3))`.
No `retry=` predicate is given, so tenacity's default applies: EVERY
exception raised by the body is retried until the stop condition
(3 attempts) is reached, after which `RetryError` wrapping the last
attempt's exception is raised. Returns the result together with the number
of attempts made. -/
def retry_go (endpoint : Nat → HttpResult) (attempt : Nat) :
    Nat → Except Err OAuthToken × Nat
  | 0 => (.error (.retryError .typeError), attempt)
  | fuel + 1 =>
    match token_attempt (endpoint attempt) with
    | .ok t => (.ok t, attempt)
    | .error e =>
      if fuel = 0 then (.error (.retryError e), attempt)
      else retry_go endpoint (attempt + 1) fuel

/-- `WorkdayTokenProvider.get_access_token` under its tenacity decorator,
driven by the token-endpoint oracle; the `Nat` is the number of HTTP POST
attempts performed. -/
def get_access_token (endpoint : Nat → HttpResult) : Except Err OAuthToken × Nat :=
  retry_go endpoint 1 3

/-- tenacity's `wait_exponential(min=1, max=8)` with the default
multiplier 1 and base 2: the sleep inserted after failed attempt `n` is
`max(1, min(8, 2^(n-1)))` time units. -/
def wait_exponential_1_8 (n : Nat) : Nat :=
  max 1 (min 8 (2 ^ (n - 1)))

/-! ## workday/helpers.py — identity resolution and the worker context -/

/-- `get_workday_access_token` (helpers.py lines 24-27): run the provider
and return `token.access_token` (whatever JSON value the endpoint carried).
The trace records one `credentialExchange` event per HTTP attempt. -/
def get_workday_access_token (env : Env) : Except Err JVal × List Ev :=
  match get_access_token env.token_endpoint with
  | (.ok t, a) => (.ok t.access_token, List.replicate a .credentialExchange)
  | (.error e, a) => (.error e, List.replicate a .credentialExchange)

/-- `get_employee_id_from_graph` (helpers.py lines 46-61): acquire a Graph
app token (`get_graph_access_token`, one POST), GET the user resource, then
use `employeeId` when truthy, else the local part of `userPrincipalName`
when truthy, else raise
`ValueError("Unable to determine employee ID from Microsoft Graph")`.
Transport/status failures of either call surface as exceptions (here
`httpException` with the oracle's message). -/
def get_employee_id_from_graph (env : Env) (ident : String) :
    Except Err String × List Ev :=
  match env.graph_token with
  | .error m => (.error (.httpException m), [.graphTokenRequest])
  | .ok _ =>
    match env.graph_user ident with
    | .error m => (.error (.httpException m), [.graphTokenRequest, .graphLookup ident])
    | .ok user =>
      let r : Except Err String :=
        match user.employeeId with
        | some e =>
          if e ≠ "" then .ok e
          else
            match user.userPrincipalName with
            | some upn =>
              if upn ≠ "" then .ok ((py_split upn '@').headD "")
              else .error (.valueError "Unable to determine employee ID from Microsoft Graph")
            | none => .error (.valueError "Unable to determine employee ID from Microsoft Graph")
        | none =>
          match user.userPrincipalName with
          | some upn =>
            if upn ≠ "" then .ok ((py_split upn '@').headD "")
            else .error (.valueError "Unable to determine employee ID from Microsoft Graph")
          | none => .error (.valueError "Unable to determine employee ID from Microsoft Graph")
      (r, [.graphTokenRequest, .graphLookup ident])

/-- The `username` binding of `extract_worker_id_from_token`:
`payload.get("preferred_username") or payload.get("upn") or
payload.get("unique_name")`. -/
def username_of (payload : Claims) : Option JVal :=
  py_or (claim_get payload "preferred_username")
    (py_or (claim_get payload "upn") (claim_get payload "unique_name"))

/-- The loop over the employee-id claim variants (helpers.py lines 80-82):
first key present with a truthy value wins, converted with `str()`. -/
def first_truthy_key (payload : Claims) : List String → Option String
  | [] => none
  | k :: ks =>
    match claim_get payload k with
    | some v => if truthy v then some (pyStr v) else first_truthy_key payload ks
    | none => first_truthy_key payload ks

/-- One guarded Graph-lookup strategy of `extract_worker_id_from_token`:
the `try` body returns the resolved id, `except Exception` logs and yields
no match. When the identifier value is truthy but not a string, the Graph
app token is still requested first (it is acquired before `quote(...)`
raises `TypeError`), and the `TypeError` is caught like any other failure. -/
def graph_strategy (env : Env) (v : JVal) : Option String × List Ev :=
  match v with
  | .s u =>
    match get_employee_id_from_graph env u with
    | (.ok r, evs) => (some r, evs)
    | (.error _, evs) => (none, evs)
  | _ => (none, [.graphTokenRequest])

/-- Strategy 1 of `extract_worker_id_from_token` (helpers.py lines 68-72):
the guarded Graph lookup keyed by the (truthy) username claim. -/
def strategy_username (env : Env) (payload : Claims) : Option String × List Ev :=
  match username_of payload with
  | some v => if truthy v then graph_strategy env v else (none, [])
  | none => (none, [])

/-- Strategy 2 (helpers.py lines 74-78): the guarded Graph lookup keyed by
`str(payload["oid"])` when the `oid` claim is present and truthy. -/
def strategy_oid (env : Env) (payload : Claims) : Option String × List Ev :=
  match claim_get payload "oid" with
  | some v => if truthy v then graph_strategy env (.s (pyStr v)) else (none, [])
  | none => (none, [])

/-- The tail of `extract_worker_id_from_token` (helpers.py lines 84-87):
the local part of a (string) username when one exists, otherwise
`ValueError("Worker ID could not be determined from token")`; a truthy
non-string username raises `AttributeError` (`.split` on a non-str). -/
def strategy_fallback (payload : Claims) : Except Err String :=
  match username_of payload with
  | some (.s u) =>
    if u ≠ "" then .ok ((py_split u '@').headD "")
    else .error (.valueError "Worker ID could not be determined from token")
  | some v =>
    if truthy v then .error .attributeError
    else .error (.valueError "Worker ID could not be determined from token")
  | none => .error (.valueError "Worker ID could not be determined from token")

/-- `extract_worker_id_from_token` (helpers.py lines 64-87). Strategies in
order: Graph lookup keyed by the username claim; Graph lookup keyed by
`str(oid)`; the four employee-id claim variants verbatim (via `str`); the
local part of the username; otherwise the `ValueError`. Both Graph
strategies swallow their exceptions and later strategies still run. -/
def extract_worker_id_from_token (env : Env) (payload : Claims) :
    Except Err String × List Ev :=
  match strategy_username env payload with
  | (some r, evs) => (.ok r, evs)
  | (none, evs1) =>
    match strategy_oid env payload with
    | (some r, evs2) => (.ok r, evs1 ++ evs2)
    | (none, evs2) =>
      match first_truthy_key payload
          ["EmployeeId", "employeeId", "employee_id", "extension_EmployeeId"] with
      | some r => (.ok r, evs1 ++ evs2)
      | none => (strategy_fallback payload, evs1 ++ evs2)

/-- `search_worker_in_workday` (helpers.py lines 90-105): GET the worker
collection with `?search='{worker_id}'`, `raise_for_status`, read
`data.get("data", [])`; an empty/falsy result raises
`LookupError(f"No worker found with ID ...")`, otherwise `records[0]` is
returned. -/
def search_worker_in_workday (env : Env) (worker_id : String) :
    Except Err JVal × List Ev :=
  let r : Except Err JVal :=
    match env.worker_search worker_id with
    | .error m => .error (.httpException m)
    | .ok body =>
      match py_getD body "data" (.list []) with
      | .error e => .error e
      | .ok records =>
        if ¬ truthy records then
          .error (.lookupError ("No worker found with ID " ++ worker_id))
        else py_index0 records
  (r, [.workerSearch])

/-- `WorkerContext` (helpers.py lines 108-114). `workday_id` and
`workday_access_token` hold raw JSON values, exactly as Python stores them
(no conversion is applied on these paths). -/
structure WorkerContext where
  payload : Claims
  worker_id : String
  workday_id : JVal
  workday_access_token : JVal
  worker_data : JVal

/-- `build_worker_context` (helpers.py lines 117-130): validate → resolve
worker id → acquire the Workday token → search the worker; then
`workday_id = worker_data.get("id", worker_id)`. Each step's error
propagates unchanged; the trace is the concatenation of the steps'
traces, with the validation round trip first. -/
def build_worker_context (env : Env) (token : String) :
    Except Err WorkerContext × List Ev :=
  match entra_validate (env.decode token) env.settings with
  | .error e => (.error e, [.validate])
  | .ok payload =>
    match extract_worker_id_from_token env payload with
    | (.error e, evs1) => (.error e, .validate :: evs1)
    | (.ok worker_id, evs1) =>
      match get_workday_access_token env with
      | (.error e, evs2) => (.error e, .validate :: (evs1 ++ evs2))
      | (.ok access_token, evs2) =>
        match search_worker_in_workday env worker_id with
        | (.error e, evs3) => (.error e, .validate :: (evs1 ++ evs2 ++ evs3))
        | (.ok worker_data, evs3) =>
          match py_getD worker_data "id" (.s worker_id) with
          | .error e => (.error e, .validate :: (evs1 ++ evs2 ++ evs3))
          | .ok workday_id =>
            (.ok { payload := payload
                   worker_id := worker_id
                   workday_id := workday_id
                   workday_access_token := access_token
                   worker_data := worker_data },
             .validate :: (evs1 ++ evs2 ++ evs3))

/-! ## workday/tools.py — tool gate, date range, leave booking -/

/-- `_get_auth_token` (tools.py lines 19-39): require an HTTP context, read
the `authorization` header, require a `bearer ` scheme case-insensitively,
then take everything after the first space, stripped; an empty remainder is
rejected. (The defensive `request_context.request` guard marked
`pragma: no cover` is folded into the missing-context case.) -/
def _get_auth_token (ctx : Option Request) : Except Err String :=
  match ctx with
  | none => .error (.valueError "HTTP context not available; provide Authorization header")
  | some req =>
    match header_get req "authorization" with
    | none => .error (.valueError "Authorization bearer token is required in the request headers")
    | some h =>
      if h = "" ∨ ¬ py_startswith (py_lower h) "bearer " then
        .error (.valueError "Authorization bearer token is required in the request headers")
      else
        let token := py_strip (String.mk ((split_once_char ' ' h.toList).map (·.2) |>.getD []))
        if token = "" then
          .error (.valueError "Authorization bearer token is required in the request headers")
        else .ok token

/-- A `datetime.date`. -/
structure PyDate where
  year : Nat
  month : Nat
  day : Nat
deriving DecidableEq, Repr

def is_leap (y : Nat) : Bool :=
  (y % 4 = 0 && y % 100 ≠ 0) || y % 400 = 0

def days_in_month (y m : Nat) : Nat :=
  if m = 2 then (if is_leap y then 29 else 28)
  else if m = 4 ∨ m = 6 ∨ m = 9 ∨ m = 11 then 30
  else 31

def next_day (d : PyDate) : PyDate :=
  if d.day < days_in_month d.year d.month then ⟨d.year, d.month, d.day + 1⟩
  else if d.month < 12 then ⟨d.year, d.month + 1, 1⟩
  else ⟨d.year + 1, 1, 1⟩

/-- `datetime` comparison restricted to midnight datetimes: lexicographic on
(year, month, day). -/
def date_le (a b : PyDate) : Bool :=
  a.year < b.year ||
    (a.year = b.year && (a.month < b.month ||
      (a.month = b.month && a.day ≤ b.day)))

def pad_nat (width n : Nat) : String :=
  let s := toString n
  String.mk (List.replicate (width - s.toList.length) '0') ++ s

/-- `date.isoformat()`. -/
def iso_of_date (d : PyDate) : String :=
  pad_nat 4 d.year ++ "-" ++ pad_nat 2 d.month ++ "-" ++ pad_nat 2 d.day

/-- `datetime.fromisoformat` restricted to the `YYYY-MM-DD` date form the
booking tool receives (the full datetime grammar is not modelled; any other
shape maps to the parser's `ValueError`). -/
def parse_iso_date (v : String) : Option PyDate :=
  match py_split v '-' with
  | [ys, ms, ds] =>
    match parse_digits ys.toList, parse_digits ms.toList, parse_digits ds.toList with
    | some y, some m, some d =>
      if ys.toList.length = 4 ∧ ms.toList.length = 2 ∧ ds.toList.length = 2 ∧
          1 ≤ m ∧ m ≤ 12 ∧ 1 ≤ d ∧ d ≤ days_in_month y m then
        some ⟨y, m, d⟩
      else none
    | _, _, _ => none
  | _ => none

/-- The `while current <= end` loop of `_generate_date_range`, with fuel (the
caller supplies an upper bound on the number of days; the loop stops by the
guard, never by fuel, whenever `fuel ≥` the length of the range). -/
def gen_range_go (stop : PyDate) : Nat → PyDate → List String
  | 0, _ => []
  | fuel + 1, cur =>
    if date_le cur stop then iso_of_date cur :: gen_range_go stop fuel (next_day cur)
    else []

/-- `_generate_date_range` (tools.py lines 386-392): parse both endpoints
(`ValueError` on malformed input) and yield each day from start to end
inclusive. -/
def _generate_date_range (start_date end_date : String) : Except Err (List String) :=
  match parse_iso_date start_date with
  | none => .error (.valueError ("Invalid isoformat string: '" ++ start_date ++ "'"))
  | some st =>
    match parse_iso_date end_date with
    | none => .error (.valueError ("Invalid isoformat string: '" ++ end_date ++ "'"))
    | some en =>
      .ok (gen_range_go en ((en.year + 2 - st.year) * 366) st)

/-- `_create_days_array` (tools.py lines 395-411): one entry per day in the
range; `dailyQuantity` is the request's quantity string unless the unit is
`"days"` case-insensitively, in which case it is `"8"`. -/
def _create_days_array (start_date end_date quantity unit reason time_off_type_id : String) :
    Except Err (List JVal) :=
  match _generate_date_range start_date end_date with
  | .error e => .error e
  | .ok range =>
    .ok (range.map (fun day =>
      let daily_quantity := if py_lower unit = "days" then "8" else quantity
      .obj [("date", .s (day ++ "T08:00:00.000Z")),
            ("start", .s (day ++ "T08:00:00.000Z")),
            ("end", .s (day ++ "T17:00:00.000Z")),
            ("dailyQuantity", .s daily_quantity),
            ("comment", .s reason),
            ("timeOffType", .obj [("id", .s time_off_type_id)])]))

/-- httpx `response.is_error`: any 4xx or 5xx status. -/
def resp_is_error (st : Nat) : Bool :=
  400 ≤ st && st ≤ 599

/-- The `parsed_body` binding of `tool_book_leave` (tools.py lines 435-440):
`response.json()` when the content type mentions `application/json` (a JSON
decode failure propagates), else a dict wrapping `response.text` under
`"message"`. -/
def parsed_body_of (resp : MutResponse) : Except Err JVal :=
  if py_in_str "application/json" resp.content_type then
    match resp.json_body with
    | .error m => .error (.httpException m)
    | .ok v => .ok v
  else .ok (.obj [("message", .s resp.text)])

/-- The error-message construction of `tool_book_leave` (lines 442-448):
for a dict body, `parsed_body.get("errors", [\x7b\x7d])[0].get("error") or
parsed_body.get("error")`, then `"message"`, then the generic
`f"Workday API error \x7bstatus\x7d"`. Note the `[0]` indexing and `.get`
calls can raise (`IndexError` on an empty `errors` list, `AttributeError`
on a non-dict element, ...): those exceptions escape instead of a message
being produced. The resulting message is `raise`d as `ValueError(message)`;
`pyStr` renders a non-string JSON message the way the surfaced exception
text would. -/
def mutation_error_message (parsed_body : JVal) (status : Nat) : Except Err String :=
  match parsed_body with
  | .obj fs =>
    match py_index0 ((assoc_get fs "errors").getD (.list [.obj []])) with
    | .error e => .error e
    | .ok e0 =>
      match py_get e0 "error" with
      | .error e => .error e
      | .ok m0 =>
        let m1 := py_or m0 (assoc_get fs "error")
        let m2 := if truthyO m1 then m1 else assoc_get fs "message"
        match m2 with
        | some v =>
          if truthy v then .ok (pyStr v)
          else .ok ("Workday API error " ++ toString status)
        | none => .ok ("Workday API error " ++ toString status)
  | _ => .ok ("Workday API error " ++ toString status)

/-! ## workday/tools.py — business fetchers and flatteners -/

/-- `_fetch_json` (tools.py lines 67-72): GET the URL with the bearer
header, `raise_for_status`, `response.json()`; transport/status/JSON
failures surface as exceptions. -/
def _fetch_json (env : Env) (url : String) : Except Err JVal × List Ev :=
  match env.fetch_json url with
  | .error m => (.error (.httpException m), [.fetch url])
  | .ok v => (.ok v, [.fetch url])

/-- `_transform_worker` (tools.py lines 42-64). -/
def _transform_worker (worker_data : JVal) : Except Err JVal := do
  let primary_job ← py_getD worker_data "primaryJob" (.obj [])
  let location ← py_getD primary_job "location" (.obj [])
  let country ← py_getD location "country" (.obj [])
  let workdayId ← py_get worker_data "id"
  let workerId ← py_get worker_data "workerId"
  let name ← py_get worker_data "descriptor"
  let person ← py_getD worker_data "person" (.obj [])
  let email ← py_get person "email"
  let workerType ← py_getD worker_data "workerType" (.obj [])
  let workerTypeD ← py_get workerType "descriptor"
  let businessTitle ← py_get primary_job "businessTitle"
  let locationD ← py_get location "descriptor"
  let locationId ← py_get location "Location_ID"
  let countryD ← py_get country "descriptor"
  let countryCode ← py_get country "ISO_3166-1_Alpha-3_Code"
  let supOrg ← py_getD primary_job "supervisoryOrganization" (.obj [])
  let supOrgD ← py_get supOrg "descriptor"
  let jobType ← py_getD primary_job "jobType" (.obj [])
  let jobTypeD ← py_get jobType "descriptor"
  let jobProfile ← py_getD primary_job "jobProfile" (.obj [])
  let jobProfileD ← py_get jobProfile "descriptor"
  let primaryJobId ← py_get primary_job "id"
  let primaryJobD ← py_get primary_job "descriptor"
  pure (.obj
    [("workdayId", optToNull workdayId),
     ("workerId", optToNull workerId),
     ("name", optToNull name),
     ("email", optToNull email),
     ("workerType", optToNull workerTypeD),
     ("businessTitle", optToNull businessTitle),
     ("location", optToNull locationD),
     ("locationId", optToNull locationId),
     ("country", optToNull countryD),
     ("countryCode", optToNull countryCode),
     ("supervisoryOrganization", optToNull supOrgD),
     ("jobType", optToNull jobTypeD),
     ("jobProfile", optToNull jobProfileD),
     ("primaryJobId", optToNull primaryJobId),
     ("primaryJobDescriptor", optToNull primaryJobD)])

/-- Iterate `data.get(key, [])` of a fetched body and flatten each item. -/
def map_data_entries (body : JVal) (key : String) (f : JVal → Except Err JVal) :
    Except Err JVal := do
  let dv ← py_getD body key (.list [])
  let items ← py_iter dv
  let entries ← items.mapM f
  pure (.list entries)

def workday_absence_base : String :=
  "https://wd2-impl-services1.workday.com/ccx/api/absenceManagement/v1/microsoft_dpt6/"

def workday_common_base : String :=
  "https://wd2-impl-services1.workday.com/ccx/api/common/v1/microsoft_dpt6/"

/-- `_get_leave_balances` (tools.py lines 86-105). -/
def _get_leave_balances (env : Env) (_access_token workday_id : JVal) :
    Except Err JVal × List Ev :=
  let url := workday_absence_base ++ "balances?worker=" ++ pyStr workday_id
  match _fetch_json env url with
  | (.error e, evs) => (.error e, evs)
  | (.ok data, evs) =>
    (map_data_entries data "data" (fun balance => do
      let plan ← py_getD balance "absencePlan" (.obj [])
      let planName ← py_get plan "descriptor"
      let planId ← py_get plan "id"
      let bal ← py_getD balance "quantity" (.s "0")
      let unit ← py_getD balance "unit" (.obj [])
      let unitD ← py_get unit "descriptor"
      let effectiveDate ← py_get balance "effectiveDate"
      let timeOffTypes ← py_getD plan "timeoffs" (.s "")
      pure (.obj
        [("planName", optToNull planName),
         ("planId", optToNull planId),
         ("balance", bal),
         ("unit", optToNull unitD),
         ("effectiveDate", optToNull effectiveDate),
         ("timeOffTypes", timeOffTypes)])), evs)

/-- `_get_eligible_absence_types` (tools.py lines 108-125). -/
def _get_eligible_absence_types (env : Env) (_access_token workday_id : JVal) :
    Except Err JVal × List Ev :=
  let url := workday_absence_base ++ "workers/" ++ pyStr workday_id ++ "/eligibleAbsenceTypes"
  match _fetch_json env url with
  | (.error e, evs) => (.error e, evs)
  | (.ok data, evs) =>
    (map_data_entries data "data" (fun item => do
      let name ← py_get item "descriptor"
      let id ← py_get item "id"
      let unitOfTime ← py_getD item "unitOfTime" (.obj [])
      let unitD ← py_get unitOfTime "descriptor"
      let category ← py_getD item "category" (.obj [])
      let categoryD ← py_get category "descriptor"
      let group ← py_getD item "absenceTypeGroup" (.obj [])
      let groupD ← py_get group "descriptor"
      pure (.obj
        [("name", optToNull name),
         ("id", optToNull id),
         ("unit", optToNull unitD),
         ("category", optToNull categoryD),
         ("group", optToNull groupD)])), evs)

/-- `_get_leaves_of_absence` (tools.py lines 128-147). -/
def _get_leaves_of_absence (env : Env) (_access_token workday_id : JVal) :
    Except Err JVal × List Ev :=
  let url := workday_absence_base ++ "workers/" ++ pyStr workday_id ++ "/leavesOfAbsence"
  match _fetch_json env url with
  | (.error e, evs) => (.error e, evs)
  | (.ok data, evs) =>
    (map_data_entries data "data" (fun item => do
      let id ← py_get item "id"
      let leaveType ← py_getD item "leaveType" (.obj [])
      let leaveTypeD ← py_get leaveType "descriptor"
      let status ← py_getD item "status" (.obj [])
      let statusD ← py_get status "descriptor"
      let firstDay ← py_get item "firstDayOfLeave"
      let lastDay ← py_get item "lastDayOfWork"
      let estimated ← py_get item "estimatedLastDayOfLeave"
      let comment ← py_getD item "latestLeaveComment" (.s "")
      pure (.obj
        [("id", optToNull id),
         ("leaveType", optToNull leaveTypeD),
         ("status", optToNull statusD),
         ("firstDayOfLeave", optToNull firstDay),
         ("lastDayOfWork", optToNull lastDay),
         ("estimatedLastDay", optToNull estimated),
         ("comment", comment)])), evs)

/-- `_get_time_off_details` (tools.py lines 150-168). -/
def _get_time_off_details (env : Env) (_access_token workday_id : JVal) :
    Except Err JVal × List Ev :=
  let url := workday_absence_base ++ "workers/" ++ pyStr workday_id ++ "/timeOffDetails"
  match _fetch_json env url with
  | (.error e, evs) => (.error e, evs)
  | (.ok data, evs) =>
    (map_data_entries data "data" (fun item => do
      let date ← py_get item "date"
      let timeOffType ← py_getD item "timeOffType" (.obj [])
      let timeOffTypeD ← py_get timeOffType "descriptor"
      let quantity ← py_get item "quantity"
      let unit ← py_getD item "unit" (.obj [])
      let unitD ← py_get unit "descriptor"
      let status ← py_getD item "status" (.obj [])
      let statusD ← py_get status "descriptor"
      let comment ← py_getD item "comment" (.s "")
      pure (.obj
        [("date", optToNull date),
         ("timeOffType", optToNull timeOffTypeD),
         ("quantity", optToNull quantity),
         ("unit", optToNull unitD),
         ("status", optToNull statusD),
         ("comment", comment)])), evs)

/-- `_fetch_direct_reports` (tools.py lines 191-211). -/
def _fetch_direct_reports (env : Env) (_access_token workday_id : JVal) :
    Except Err JVal × List Ev :=
  let url := workday_common_base ++ "workers/" ++ pyStr workday_id ++ "/directReports"
  match _fetch_json env url with
  | (.error e, evs) => (.error e, evs)
  | (.ok data, evs) =>
    (map_data_entries data "data" (fun item => do
      let isManager ← py_get item "isManager"
      let phone ← py_get item "primaryWorkPhone"
      let mail ← py_get item "primaryWorkEmail"
      let org ← py_getD item "primarySupervisoryOrganization" (.obj [])
      let orgD ← py_get org "descriptor"
      let businessTitle ← py_get item "businessTitle"
      let descriptor ← py_get item "descriptor"
      pure (.obj
        [("isManager", optToNull isManager),
         ("primaryWorkPhone", optToNull phone),
         ("primaryWorkEmail", optToNull mail),
         ("primarySupervisoryOrganization", optToNull orgD),
         ("businessTitle", optToNull businessTitle),
         ("descriptor", optToNull descriptor)])), evs)

/-- `_fetch_inbox_tasks` (tools.py lines 221-241). -/
def _fetch_inbox_tasks (env : Env) (_access_token workday_id : JVal) :
    Except Err JVal × List Ev :=
  let url := workday_common_base ++ "workers/" ++ pyStr workday_id ++ "/inboxTasks"
  match _fetch_json env url with
  | (.error e, evs) => (.error e, evs)
  | (.ok data, evs) =>
    (map_data_entries data "data" (fun item => do
      let assigned ← py_get item "assigned"
      let due ← py_get item "due"
      let initiator ← py_getD item "initiator" (.obj [])
      let initiatorD ← py_get initiator "descriptor"
      let status ← py_getD item "status" (.obj [])
      let statusD ← py_get status "descriptor"
      let stepType ← py_getD item "stepType" (.obj [])
      let stepTypeD ← py_get stepType "descriptor"
      let subject ← py_getD item "subject" (.obj [])
      let subjectD ← py_get subject "descriptor"
      let overall ← py_getD item "overallProcess" (.obj [])
      let overallD ← py_get overall "descriptor"
      let descriptor ← py_get item "descriptor"
      pure (.obj
        [("assigned", optToNull assigned),
         ("due", optToNull due),
         ("initiator", optToNull initiatorD),
         ("status", optToNull statusD),
         ("stepType", optToNull stepTypeD),
         ("subject", optToNull subjectD),
         ("overallProcess", optToNull overallD),
         ("descriptor", optToNull descriptor)])), evs)

/-- `_fetch_learning_assignments` (tools.py lines 251-270); note the custom
report iterates `Report_Entry` and compares the flag fields to `"1"`. -/
def _fetch_learning_assignments (env : Env) (_access_token workday_id : JVal) :
    Except Err JVal × List Ev :=
  let url := "https://wd2-impl-services1.workday.com/ccx/service/customreport2/" ++
    "microsoft_dpt6/svasireddy/Required_Learning" ++
    "?Worker_s__for_Learning_Assignment%21WID=" ++ pyStr workday_id ++ "&format=json"
  match _fetch_json env url with
  | (.error e, evs) => (.error e, evs)
  | (.ok data, evs) =>
    (map_data_entries data "Report_Entry" (fun item => do
      let assignmentStatus ← py_get item "assignmentStatus"
      let dueDate ← py_get item "dueDate"
      let learningContent ← py_get item "learningContent"
      let overdue ← py_get item "overdue"
      let required ← py_get item "required"
      let workdayId ← py_get item "workdayId"
      pure (.obj
        [("assignmentStatus", optToNull assignmentStatus),
         ("dueDate", optToNull dueDate),
         ("learningContent", optToNull learningContent),
         ("overdue", .b (py_eq_str (optToNull overdue) "1")),
         ("required", .b (py_eq_str (optToNull required) "1")),
         ("workdayId", optToNull workdayId)])), evs)

/-- `_fetch_pay_slips` (tools.py lines 282-299). -/
def _fetch_pay_slips (env : Env) (_access_token workday_id : JVal) :
    Except Err JVal × List Ev :=
  let url := workday_common_base ++ "workers/" ++ pyStr workday_id ++ "/paySlips"
  match _fetch_json env url with
  | (.error e, evs) => (.error e, evs)
  | (.ok data, evs) =>
    (map_data_entries data "data" (fun item => do
      let gross ← py_get item "gross"
      let status ← py_getD item "status" (.obj [])
      let statusD ← py_get status "descriptor"
      let net ← py_get item "net"
      let date ← py_get item "date"
      let descriptor ← py_get item "descriptor"
      pure (.obj
        [("gross", optToNull gross),
         ("status", optToNull statusD),
         ("net", optToNull net),
         ("date", optToNull date),
         ("descriptor", optToNull descriptor)])), evs)

/-- `_fetch_time_off_entries` (tools.py lines 309-330). -/
def _fetch_time_off_entries (env : Env) (_access_token workday_id : JVal) :
    Except Err JVal × List Ev :=
  let url := workday_common_base ++ "workers/" ++ pyStr workday_id ++ "/timeOffEntries"
  match _fetch_json env url with
  | (.error e, evs) => (.error e, evs)
  | (.ok data, evs) =>
    (map_data_entries data "data" (fun item => do
      let employee ← py_getD item "employee" (.obj [])
      let employeeD ← py_get employee "descriptor"
      let tor ← py_getD item "timeOffRequest" (.obj [])
      let torStatus ← py_get tor "status"
      let torD ← py_get tor "descriptor"
      let unitOfTime ← py_getD item "unitOfTime" (.obj [])
      let unitD ← py_get unitOfTime "descriptor"
      let timeOff ← py_getD item "timeOff" (.obj [])
      let plan ← py_getD timeOff "plan" (.obj [])
      let planD ← py_get plan "descriptor"
      let timeOffD ← py_get timeOff "descriptor"
      let date ← py_get item "date"
      let units ← py_get item "units"
      let descriptor ← py_get item "descriptor"
      pure (.obj
        [("employee", optToNull employeeD),
         ("timeOffRequestStatus", optToNull torStatus),
         ("timeOffRequestDescriptor", optToNull torD),
         ("unitOfTime", optToNull unitD),
         ("timeOffPlan", optToNull planD),
         ("timeOffDescriptor", optToNull timeOffD),
         ("date", optToNull date),
         ("units", optToNull units),
         ("descriptor", optToNull descriptor)])), evs)

/-- `[c.get("descriptor") for c in xs]` over a JSON list. -/
def descriptor_list (v : JVal) : Except Err JVal := do
  let items ← py_iter v
  let ds ← items.mapM (fun c => do
    let d ← py_get c "descriptor"
    pure (optToNull d))
  pure (.list ds)

/-- `_flatten_lesson` (tools.py lines 514-538). -/
def _flatten_lesson (lesson : JVal) : Except Err JVal := do
  let id ← py_get lesson "id"
  let descriptor ← py_get lesson "descriptor"
  let description ← py_get lesson "description"
  let order ← py_get lesson "order"
  let required ← py_get lesson "required"
  let contentType ← py_getD lesson "contentType" (.obj [])
  let contentTypeD ← py_get contentType "descriptor"
  let ild ← py_getD lesson "instructorLedData" (.obj [])
  let ildDuration ← py_get ild "duration"
  let mediaData ← py_getD lesson "mediaData" (.obj [])
  let mediaDuration ← py_get mediaData "duration"
  let ecd ← py_getD lesson "externalContentData" (.obj [])
  let contentURL ← py_get ecd "contentURL"
  let instructorsRaw ← py_getD ild "instructors" (.list [])
  let instructors ← descriptor_list instructorsRaw
  let tad ← py_getD lesson "trainingActivityData" (.obj [])
  let materialsRaw ← py_getD tad "materials" (.list [])
  let materials ← descriptor_list materialsRaw
  let activityType ← py_getD tad "activityType" (.obj [])
  let activityTypeD ← py_get activityType "descriptor"
  let vcd ← py_getD ild "virtualClassroomData" (.obj [])
  let vcURL ← py_get vcd "virtualClassroomURL"
  let ipd ← py_getD ild "inPersonLedData" (.obj [])
  let location ← py_get ipd "adhocLocationName"
  let ildTA ← py_get ild "trackAttendance"
  let tadTA ← py_get tad "trackAttendance"
  let ildTG ← py_get ild "trackGrades"
  let tadTG ← py_get tad "trackGrades"
  pure (.obj
    [("id", optToNull id),
     ("descriptor", optToNull descriptor),
     ("description", optToNull description),
     ("order", optToNull order),
     ("required", optToNull required),
     ("contentType", optToNull contentTypeD),
     ("duration", optToNull (py_or ildDuration mediaDuration)),
     ("contentURL", optToNull contentURL),
     ("instructors", instructors),
     ("materials", materials),
     ("activityType", optToNull activityTypeD),
     ("virtualClassroomURL", optToNull vcURL),
     ("location", optToNull location),
     ("trackAttendance", optToNull (py_or ildTA tadTA)),
     ("trackGrades", optToNull (py_or ildTG tadTG))])

/-- `_flatten_content` (tools.py lines 541-570). -/
def _flatten_content (content : JVal) : Except Err JVal := do
  let id ← py_get content "id"
  let descriptor ← py_get content "descriptor"
  let description ← py_get content "description"
  let contentNumber ← py_get content "contentNumber"
  let contentURL ← py_get content "contentURL"
  let version ← py_get content "version"
  let createdOnDate ← py_get content "createdOnDate"
  let averageRating ← py_get content "averageRating"
  let ratingCount ← py_get content "ratingCount"
  let popularity ← py_get content "popularity"
  let contentType ← py_getD content "contentType" (.obj [])
  let contentTypeD ← py_get contentType "descriptor"
  let contentProvider ← py_getD content "contentProvider" (.obj [])
  let contentProviderD ← py_get contentProvider "descriptor"
  let accessType ← py_getD content "accessType" (.obj [])
  let accessTypeD ← py_get accessType "descriptor"
  let deliveryMode ← py_getD content "deliveryMode" (.obj [])
  let deliveryModeD ← py_get deliveryMode "descriptor"
  let skillLevel ← py_getD content "skillLevel" (.obj [])
  let skillLevelD ← py_get skillLevel "descriptor"
  let lifecycleStatus ← py_getD content "lifecycleStatus" (.obj [])
  let lifecycleStatusD ← py_get lifecycleStatus "descriptor"
  let availabilityStatus ← py_getD content "availabilityStatus" (.obj [])
  let availabilityStatusD ← py_get availabilityStatus "descriptor"
  let exclRec ← py_get content "excludeFromRecommendations"
  let exclSearch ← py_get content "excludeFromSearchAndBrowse"
  let catalogsRaw ← py_getD content "learningCatalogs" (.list [])
  let catalogs ← descriptor_list catalogsRaw
  let languagesRaw ← py_getD content "languages" (.list [])
  let languages ← descriptor_list languagesRaw
  let skillsRaw ← py_getD content "skills" (.list [])
  let skills ← descriptor_list skillsRaw
  let topicsRaw ← py_getD content "topics" (.list [])
  let topics ← descriptor_list topicsRaw
  let secRaw ← py_getD content "securityCategories" (.list [])
  let securityCategories ← descriptor_list secRaw
  let contactsRaw ← py_getD content "contactPersons" (.list [])
  let contactPersons ← descriptor_list contactsRaw
  let image ← py_getD content "image" (.obj [])
  let imageURL ← py_get image "publicURL"
  pure (.obj
    [("id", optToNull id),
     ("descriptor", optToNull descriptor),
     ("description", optToNull description),
     ("contentNumber", optToNull contentNumber),
     ("contentURL", optToNull contentURL),
     ("version", optToNull version),
     ("createdOnDate", optToNull createdOnDate),
     ("averageRating", optToNull averageRating),
     ("ratingCount", optToNull ratingCount),
     ("popularity", optToNull popularity),
     ("contentType", optToNull contentTypeD),
     ("contentProvider", optToNull contentProviderD),
     ("accessType", optToNull accessTypeD),
     ("deliveryMode", optToNull deliveryModeD),
     ("skillLevel", optToNull skillLevelD),
     ("lifecycleStatus", optToNull lifecycleStatusD),
     ("availabilityStatus", optToNull availabilityStatusD),
     ("excludeFromRecommendations", optToNull exclRec),
     ("excludeFromSearchAndBrowse", optToNull exclSearch),
     ("learningCatalogs", catalogs),
     ("languages", languages),
     ("skills", skills),
     ("topics", topics),
     ("securityCategories", securityCategories),
     ("contactPersons", contactPersons),
     ("imageURL", optToNull imageURL),
     ("lessons", .list [])])

/-! ## workday/tools.py — the tool entry points -/

/-- `tool_get_worker` (tools.py lines 75-83). -/
def tool_get_worker (env : Env) (ctx : Option Request) : Except Err JVal × List Ev :=
  match _get_auth_token ctx with
  | .error e => (.error e, [])
  | .ok entra_token =>
    match build_worker_context env entra_token with
    | (.error e, evs) => (.error e, evs)
    | (.ok wc, evs) =>
      match _transform_worker wc.worker_data with
      | .error e => (.error e, evs)
      | .ok r => (.ok r, evs)

/-- `tool_get_leave_balances` (tools.py lines 171-188). The four independent
reads run under `asyncio.gather`; they are modelled in program order (every
request is issued; the first exception, in argument order, propagates),
which is observationally equivalent for every claim stated here — no claim
constrains the relative order of the four business reads. -/
def tool_get_leave_balances (env : Env) (ctx : Option Request) : Except Err JVal × List Ev :=
  match _get_auth_token ctx with
  | .error e => (.error e, [])
  | .ok token =>
    match build_worker_context env token with
    | (.error e, evs) => (.error e, evs)
    | (.ok wc, evs) =>
      let (r1, e1) := _get_leave_balances env wc.workday_access_token wc.workday_id
      let (r2, e2) := _get_eligible_absence_types env wc.workday_access_token wc.workday_id
      let (r3, e3) := _get_leaves_of_absence env wc.workday_access_token wc.workday_id
      let (r4, e4) := _get_time_off_details env wc.workday_access_token wc.workday_id
      let bevs := e1 ++ e2 ++ e3 ++ e4
      match r1, r2, r3, r4 with
      | .ok a, .ok b, .ok c, .ok d =>
        (.ok (.obj
          [("success", .b true),
           ("leaveBalances", a),
           ("eligibleAbsenceTypes", b),
           ("leavesOfAbsence", c),
           ("bookedTimeOff", d)]), evs ++ bevs)
      | .error e, _, _, _ => (.error e, evs ++ bevs)
      | _, .error e, _, _ => (.error e, evs ++ bevs)
      | _, _, .error e, _ => (.error e, evs ++ bevs)
      | _, _, _, .error e => (.error e, evs ++ bevs)

/-- `tool_get_direct_reports` (tools.py lines 214-218). -/
def tool_get_direct_reports (env : Env) (ctx : Option Request) : Except Err JVal × List Ev :=
  match _get_auth_token ctx with
  | .error e => (.error e, [])
  | .ok token =>
    match build_worker_context env token with
    | (.error e, evs) => (.error e, evs)
    | (.ok wc, evs) =>
      match _fetch_direct_reports env wc.workday_access_token wc.workday_id with
      | (.error e, evs2) => (.error e, evs ++ evs2)
      | (.ok reports, evs2) =>
        (.ok (.obj [("success", .b true), ("directReports", reports)]), evs ++ evs2)

/-- `tool_get_inbox_tasks` (tools.py lines 244-248). -/
def tool_get_inbox_tasks (env : Env) (ctx : Option Request) : Except Err JVal × List Ev :=
  match _get_auth_token ctx with
  | .error e => (.error e, [])
  | .ok token =>
    match build_worker_context env token with
    | (.error e, evs) => (.error e, evs)
    | (.ok wc, evs) =>
      match _fetch_inbox_tasks env wc.workday_access_token wc.workday_id with
      | (.error e, evs2) => (.error e, evs ++ evs2)
      | (.ok tasks, evs2) =>
        (.ok (.obj [("success", .b true), ("tasks", tasks)]), evs ++ evs2)

/-- `tool_get_learning_assignments` (tools.py lines 273-279). -/
def tool_get_learning_assignments (env : Env) (ctx : Option Request) :
    Except Err JVal × List Ev :=
  match _get_auth_token ctx with
  | .error e => (.error e, [])
  | .ok token =>
    match build_worker_context env token with
    | (.error e, evs) => (.error e, evs)
    | (.ok wc, evs) =>
      match _fetch_learning_assignments env wc.workday_access_token wc.workday_id with
      | (.error e, evs2) => (.error e, evs ++ evs2)
      | (.ok assignments, evs2) =>
        let total : Int :=
          match assignments with
          | .list vs => vs.length
          | _ => 0
        (.ok (.obj
          [("success", .b true), ("assignments", assignments), ("total", .n total)]),
         evs ++ evs2)

/-- `tool_get_pay_slips` (tools.py lines 302-306). -/
def tool_get_pay_slips (env : Env) (ctx : Option Request) : Except Err JVal × List Ev :=
  match _get_auth_token ctx with
  | .error e => (.error e, [])
  | .ok token =>
    match build_worker_context env token with
    | (.error e, evs) => (.error e, evs)
    | (.ok wc, evs) =>
      match _fetch_pay_slips env wc.workday_access_token wc.workday_id with
      | (.error e, evs2) => (.error e, evs ++ evs2)
      | (.ok pay_slips, evs2) =>
        (.ok (.obj [("success", .b true), ("paySlips", pay_slips)]), evs ++ evs2)

/-- `tool_get_time_off_entries` (tools.py lines 333-339). -/
def tool_get_time_off_entries (env : Env) (ctx : Option Request) :
    Except Err JVal × List Ev :=
  match _get_auth_token ctx with
  | .error e => (.error e, [])
  | .ok token =>
    match build_worker_context env token with
    | (.error e, evs) => (.error e, evs)
    | (.ok wc, evs) =>
      match _fetch_time_off_entries env wc.workday_access_token wc.workday_id with
      | (.error e, evs2) => (.error e, evs ++ evs2)
      | (.ok entries, evs2) =>
        (.ok (.obj [("success", .b true), ("timeOffEntries", entries)]), evs ++ evs2)

/-- Python `a or b` for an optional string argument against a default. -/
def py_or_str (a : Option String) (b : String) : String :=
  match a with
  | some v => if v ≠ "" then v else b
  | none => b

/-- `_get_default_dates` (tools.py lines 342-345): tomorrow (UTC), formatted
`%Y-%m-%d`, for both bounds. -/
def _get_default_dates (env : Env) : String :=
  iso_of_date (next_day ⟨env.today.1, env.today.2.1, env.today.2.2⟩)

def booking_guidance : JVal :=
  .obj
    [("timeFormat", .s "ISO 8601 with timezone (e.g., 2025-02-25T08:00:00.000Z)"),
     ("defaultWorkingHours", .obj
        [("start", .s "08:00:00.000Z"), ("end", .s "17:00:00.000Z")]),
     ("quantityCalculation", .obj
        [("forHours", .s "Use dailyDefaultQuantity * number of days"),
         ("forDays", .s "Use 1 per day requested")])]

/-- `tool_prepare_request_leave` (tools.py lines 348-383); the three
gathered reads are modelled in argument order, as in
`tool_get_leave_balances`. -/
def tool_prepare_request_leave (env : Env) (ctx : Option Request)
    (startDate endDate quantity unit reason : Option String) :
    Except Err JVal × List Ev :=
  match _get_auth_token ctx with
  | .error e => (.error e, [])
  | .ok token =>
    match build_worker_context env token with
    | (.error e, evs) => (.error e, evs)
    | (.ok wc, evs) =>
      let default_date := _get_default_dates env
      let request_params : JVal := .obj
        [("startDate", .s (py_or_str startDate default_date)),
         ("endDate", .s (py_or_str endDate default_date)),
         ("quantity", .s (py_or_str quantity "1")),
         ("unit", .s (py_or_str unit "Days")),
         ("reason", .s (py_or_str reason "Vacation"))]
      let (r1, e1) := _get_eligible_absence_types env wc.workday_access_token wc.workday_id
      let (r2, e2) := _get_leave_balances env wc.workday_access_token wc.workday_id
      let (r3, e3) := _get_time_off_details env wc.workday_access_token wc.workday_id
      let bevs := e1 ++ e2 ++ e3
      match r1, r2, r3 with
      | .ok a, .ok b, .ok c =>
        (.ok (.obj
          [("success", .b true),
           ("requestParameters", request_params),
           ("eligibleAbsenceTypes", a),
           ("leaveBalances", b),
           ("bookedTimeOff", c),
           ("workdayId", wc.workday_id),
           ("bookingGuidance", booking_guidance)]), evs ++ bevs)
      | .error e, _, _ => (.error e, evs ++ bevs)
      | _, .error e, _ => (.error e, evs ++ bevs)
      | _, _, .error e => (.error e, evs ++ bevs)

/-- `tool_book_leave` (tools.py lines 414-469): auth gate, full worker
context, only then the required-argument check; then the days array, the
POST, error-message extraction for 4xx/5xx responses, and the success
summary. -/
def tool_book_leave (env : Env) (ctx : Option Request)
    (startDate endDate timeOffTypeId : Option String)
    (quantity unit reason : String) : Except Err JVal × List Ev :=
  match _get_auth_token ctx with
  | .error e => (.error e, [])
  | .ok token =>
    match build_worker_context env token with
    | (.error e, evs) => (.error e, evs)
    | (.ok wc, evs) =>
      if ¬ truthyOS startDate ∨ ¬ truthyOS endDate ∨ ¬ truthyOS timeOffTypeId then
        (.error (.valueError "startDate, endDate, and timeOffTypeId are required"), evs)
      else
        match _create_days_array (startDate.getD "") (endDate.getD "") quantity unit
            reason (timeOffTypeId.getD "") with
        | .error e => (.error e, evs)
        | .ok days =>
          let url := workday_absence_base ++ "workers/" ++ pyStr wc.workday_id ++ "/requestTimeOff"
          let payload := JVal.obj [("days", .list days)]
          match env.time_off_post url payload with
          | .error m => (.error (.httpException m), evs ++ [.timeOffPost])
          | .ok resp =>
            match parsed_body_of resp with
            | .error e => (.error e, evs ++ [.timeOffPost])
            | .ok pb =>
              if resp_is_error resp.status then
                match mutation_error_message pb resp.status with
                | .error e => (.error e, evs ++ [.timeOffPost])
                | .ok msg => (.error (.valueError msg), evs ++ [.timeOffPost])
              else
                let success : Except Err JVal := do
                  let bpp ← py_getD pb "businessProcessParameters" (.obj [])
                  let obp ← py_getD bpp "overallBusinessProcess" (.obj [])
                  let business_process ← py_get obp "descriptor"
                  let bpp2 ← py_getD pb "businessProcessParameters" (.obj [])
                  let ts ← py_getD bpp2 "transactionStatus" (.obj [])
                  let transaction_status ← py_get ts "descriptor"
                  let daysVal ← py_getD pb "days" (.list days)
                  let days_booked ← py_len daysVal
                  let total_quantity ← days.foldlM (fun acc day => do
                    let dq ← py_getD day "dailyQuantity" (.n 0)
                    let x ← py_float dq
                    pure (PFloat.add acc x)) (⟨0, 1⟩ : PFloat)
                  let bpp3 ← py_getD pb "businessProcessParameters" (.obj [])
                  let overallStatus ← py_get bpp3 "overallStatus"
                  pure (JVal.obj
                    [("success", .b true),
                     ("message", .s "Time off request submitted successfully"),
                     ("bookingDetails", .obj
                       [("businessProcess", optToNull business_process),
                        ("status", optToNull overallStatus),
                        ("transactionStatus", optToNull transaction_status),
                        ("daysBooked", .n (days_booked : Int)),
                        ("totalQuantity", .f total_quantity)]),
                     ("workdayResponse", pb)])
                match success with
                | .error e => (.error e, evs ++ [.timeOffPost])
                | .ok r => (.ok r, evs ++ [.timeOffPost])

/-- `tool_change_business_title` (tools.py lines 472-490): auth gate, the
required-argument check, and only then the worker context and the POST. -/
def tool_change_business_title (env : Env) (ctx : Option Request)
    (proposedBusinessTitle : Option String) : Except Err JVal × List Ev :=
  match _get_auth_token ctx with
  | .error e => (.error e, [])
  | .ok token =>
    if ¬ truthyOS proposedBusinessTitle then
      (.error (.valueError "proposedBusinessTitle is required"), [])
    else
      match build_worker_context env token with
      | (.error e, evs) => (.error e, evs)
      | (.ok wc, evs) =>
        let url := workday_common_base ++ "workers/" ++ pyStr wc.workday_id ++
          "/businessTitleChanges?type=me"
        let payload := JVal.obj
          [("proposedBusinessTitle", .s (proposedBusinessTitle.getD ""))]
        match env.title_post url payload with
        | .error m => (.error (.httpException m), evs ++ [.titlePost])
        | .ok data =>
          (.ok (.obj
            [("success", .b true),
             ("message", .s "Business title change request submitted"),
             ("changeDetails", data)]), evs ++ [.titlePost])

/-- `_search_learning_content` (tools.py lines 493-503): GET the content
endpoint with repeated `skills`/`topics` query parameters. -/
def _search_learning_content (env : Env) (skills topics : List String) :
    Except Err JVal × List Ev :=
  let params := skills.map (fun sk => ("skills", sk)) ++ topics.map (fun tp => ("topics", tp))
  match env.learning_content params with
  | .error m => (.error (.httpException m), [.learningSearch])
  | .ok v => (.ok v, [.learningSearch])

/-- `_get_lessons` (tools.py lines 506-511), keyed by `str(content_id)` as
interpolated into the URL. -/
def _get_lessons (env : Env) (content_id : JVal) : Except Err JVal × List Ev :=
  let cid := pyStr content_id
  match env.lessons cid with
  | .error m => (.error (.httpException m), [.lessonsFetch cid])
  | .ok v => (.ok v, [.lessonsFetch cid])

/-- The per-item enrichment loop of `tool_search_learning_content` (tools.py
lines 594-602): flatten the content item (exceptions propagate), then
fetch and flatten its lessons under `try`, degrading to an empty lesson
list on any failure. An exception aborts the loop: later items are not
processed. -/
def enrich_items (env : Env) : List JVal → Except Err (List JVal) × List Ev
  | [] => (.ok [], [])
  | item :: rest =>
    match _flatten_content item with
    | .error e => (.error e, [])
    | .ok flattened =>
      let (lessonsVal, levs) :=
        match py_get item "id" with
        | .error _ => (JVal.list [], [])
        | .ok idv =>
          match _get_lessons env (optToNull idv) with
          | (.error _, levs) => (JVal.list [], levs)
          | (.ok lessons_response, levs) =>
            let flat : Except Err (List JVal) := do
              let dv ← py_getD lessons_response "data" (.list [])
              let ls ← py_iter dv
              ls.mapM _flatten_lesson
            match flat with
            | .error _ => (JVal.list [], levs)
            | .ok ls => (JVal.list ls, levs)
      let enriched_item : JVal :=
        match flattened with
        | .obj fs => .obj (obj_set fs "lessons" lessonsVal)
        | v => v
      match enrich_items env rest with
      | (.error e, revs) => (.error e, levs ++ revs)
      | (.ok tail, revs) => (.ok (enriched_item :: tail), levs ++ revs)

/-- `tool_search_learning_content` (tools.py lines 573-603). Unlike every
other tool, it builds no worker context: it validates the token directly and
acquires a Workday access token, then searches learning content.
`_normalize` on a `list[str] | None` argument is the identity on the list
and `[]` on `None`. -/
def tool_search_learning_content (env : Env) (ctx : Option Request)
    (skills topics : Option (List String)) : Except Err JVal × List Ev :=
  match _get_auth_token ctx with
  | .error e => (.error e, [])
  | .ok token =>
    match entra_validate (env.decode token) env.settings with
    | .error e => (.error e, [.validate])
    | .ok _ =>
      match get_workday_access_token env with
      | (.error e, evs) => (.error e, .validate :: evs)
      | (.ok _access_token, evs) =>
        match _search_learning_content env (skills.getD []) (topics.getD []) with
        | (.error e, evs2) => (.error e, .validate :: (evs ++ evs2))
        | (.ok content_response, evs2) =>
          let items_res : Except Err (List JVal) := do
            let dv ← py_getD content_response "data" (.list [])
            py_iter dv
          match items_res with
          | .error e => (.error e, .validate :: (evs ++ evs2))
          | .ok items =>
            match enrich_items env items with
            | (.error e, evs3) => (.error e, .validate :: (evs ++ evs2 ++ evs3))
            | (.ok enriched, evs3) =>
              (.ok (.obj
                [("success", .b true),
                 ("content", .list enriched),
                 ("total", .n (enriched.length : Int))]),
               .validate :: (evs ++ evs2 ++ evs3))

/-! ## The tool registry (`WORKDAY_TOOL_SPECS`, tools.py lines 606-618) -/

/-- The named arguments a tool call may carry; each Python handler reads
its own subset, with the Python-signature defaults applied by the wrappers
in the registry below. -/
structure ToolArgs where
  startDate : Option String := none
  endDate : Option String := none
  quantity : Option String := none
  unit : Option String := none
  reason : Option String := none
  timeOffTypeId : Option String := none
  proposedBusinessTitle : Option String := none
  skills : Option (List String) := none
  topics : Option (List String) := none

structure ToolSpec where
  name : String
  summary : String
  run : Env → Option Request → ToolArgs → Except Err JVal × List Ev

def WORKDAY_TOOL_SPECS : List ToolSpec :=
  [{ name := "get_worker"
     summary := "Get the current Workday worker profile."
     run := fun env ctx _ => tool_get_worker env ctx },
   { name := "get_leave_balances"
     summary := "Retrieve leave balances and related data."
     run := fun env ctx _ => tool_get_leave_balances env ctx },
   { name := "get_direct_reports"
     summary := "List direct reports for the current worker."
     run := fun env ctx _ => tool_get_direct_reports env ctx },
   { name := "get_inbox_tasks"
     summary := "List Workday inbox tasks for the current worker."
     run := fun env ctx _ => tool_get_inbox_tasks env ctx },
   { name := "get_learning_assignments"
     summary := "Retrieve required learning assignments."
     run := fun env ctx _ => tool_get_learning_assignments env ctx },
   { name := "get_pay_slips"
     summary := "List recent Workday pay slips."
     run := fun env ctx _ => tool_get_pay_slips env ctx },
   { name := "get_time_off_entries"
     summary := "List time off entries for the current worker."
     run := fun env ctx _ => tool_get_time_off_entries env ctx },
   { name := "prepare_request_leave"
     summary := "Prepare the data needed to submit a leave request."
     run := fun env ctx a =>
       tool_prepare_request_leave env ctx a.startDate a.endDate a.quantity a.unit a.reason },
   { name := "book_leave"
     summary := "Submit a leave request to Workday for the current worker."
     run := fun env ctx a =>
       tool_book_leave env ctx a.startDate a.endDate a.timeOffTypeId
         (a.quantity.getD "8") (a.unit.getD "Hours") (a.reason.getD "Time off request") },
   { name := "change_business_title"
     summary := "Request a business title change for the current worker."
     run := fun env ctx a => tool_change_business_title env ctx a.proposedBusinessTitle },
   { name := "search_learning_content"
     summary := "Search Workday learning content and fetch associated lessons."
     run := fun env ctx a => tool_search_learning_content env ctx a.skills a.topics }]

/-! ## Concrete fixtures: environments and requests used to evaluate the
embedded code on closed inputs -/

/-- A claim payload that passes the validator's gates and resolves through
the employee-id claim (no username/oid claim, so no directory traffic). -/
def payload_ok : Claims :=
  [("tid", .s "tenant-id"), ("scp", .s "workday_read"), ("EmployeeId", .s "E1")]

def settings_ok : SharedAuthSettings :=
  { aad_app_client_id := "client-id", aad_app_tenant_id := "tenant-id" }

/-- A fully healthy environment: decoding succeeds with `payload_ok`, the
token endpoint returns `wd-token` on every attempt, the worker search finds
one record, business endpoints return empty data, and the booking POST
returns HTTP 400 with the absence-type error body (individual claims
override the fields they need). -/
def env_ok : Env :=
  { decode := fun _ => .ok payload_ok
    settings := settings_ok
    graph_token := .ok "graph-token"
    graph_user := fun _ => .error "graph down"
    token_endpoint := fun _ => .response 200 (.ok (.obj [("access_token", .s "wd-token")]))
    worker_search := fun _ => .ok (.obj [("data", .list [.obj [("id", .s "WID1")]])])
    fetch_json := fun _ => .ok (.obj [("data", .list [])])
    learning_content := fun _ => .ok (.obj [("data", .list [])])
    lessons := fun _ => .ok (.obj [("data", .list [])])
    time_off_post := fun _ _ =>
      .ok { status := 400
            content_type := "application/json"
            json_body := .ok (.obj [("errors", .list [.obj [("error", .s "Absence type invalid")]])])
            text := "" }
    title_post := fun _ _ => .ok (.obj [])
    today := (2024, 12, 1) }

def req_bearer : Request := { headers := [("Authorization", "Bearer tok")] }

def env_fail_validation : Env :=
  { env_ok with decode := fun _ => .error "Signature verification failed" }

def env_empty_token : Env :=
  { env_ok with token_endpoint := fun _ => .response 200 (.ok (.obj [("access_token", .s "")])) }

def resp_302 : MutResponse :=
  { status := 302
    content_type := "application/json"
    json_body := .ok (.obj [("errors", .list [.obj [("error", .s "Absence type invalid")]])])
    text := "" }

def env_resp_302 : Env :=
  { env_ok with time_off_post := fun _ _ => .ok resp_302 }

def resp_400_empty_errors : MutResponse :=
  { status := 400
    content_type := "application/json"
    json_body := .ok (.obj [("errors", .list [])])
    text := "" }

def env_resp_empty_errors : Env :=
  { env_ok with time_off_post := fun _ _ => .ok resp_400_empty_errors }

/-- Claims carrying only the username `alice@contoso.com`. -/
def alice_claims : Claims := [("preferred_username", .s "alice@contoso.com")]

def env_graph_e123 : Env :=
  { env_ok with
    decode := fun _ => .ok alice_claims
    graph_user := fun _ => .ok { employeeId := some "E123"
                                 userPrincipalName := some "alice@contoso.com" } }

def env_graph_down : Env :=
  { env_ok with graph_user := fun _ => .error "network error" }

def endpoint_503_503_ok : Nat → HttpResult := fun a =>
  if a ≤ 2 then .response 503 (.ok (.obj []))
  else .response 200 (.ok (.obj [("access_token", .s "tok503")]))

def endpoint_always_401 : Nat → HttpResult := fun _ =>
  .response 401 (.ok (.obj [("error", .s "invalid_grant")]))

/-- The payload and options of the C5 counterexample: the required scope is
present in the `roles` claim, but a `scp` claim is also present without it. -/
def scp_shadow_payload : Claims :=
  [("tid", .s "t0"), ("scp", .s "profile"), ("roles", .list [.s "workday_read"])]

def scp_shadow_options : TokenValidationOptions :=
  { audience := "aud", issuer := "iss"
    scopes := ["workday_read"], allowed_tenants := ["t0"] }

/-- The non-emptiness hypothesis on directory responses: every
userPrincipalName the directory can return has a non-empty local part. -/
def GraphUpnOk (env : Env) : Prop :=
  ∀ ident u, env.graph_user ident = .ok u →
    ∀ p, u.userPrincipalName = some p → (py_split p '@').headD "" ≠ ""

/-- The non-emptiness hypothesis on the token endpoint: every successful
JSON body's `access_token` field is a non-empty string. -/
def TokenEndpointOk (env : Env) : Prop :=
  ∀ (a st : Nat) (body : Except String JVal) (fs : List (String × JVal)),
    env.token_endpoint a = .response st body → body = .ok (.obj fs) →
    ∀ w, assoc_get fs "access_token" = some w → ∃ s, w = .s s ∧ s ≠ ""

/-! ## Supporting lemmas -/

theorem py_eq_str_iff (v : JVal) (t : String) : py_eq_str v t = true ↔ v = .s t := by
  cases v <;> simp [py_eq_str]

/-! ## Claim C3 -/

/-- C3: for every token on which validation fails, `build_worker_context`
issues no credential-exchange call and no worker-search call (nor any
directory traffic — its trace is just the validation round trip), the
validation error propagates unchanged, and no context is returned. -/
theorem claim_C3 (env : Env) (token : String) (e : Err)
    (h : entra_validate (env.decode token) env.settings = .error e) :
    build_worker_context env token = (.error e, [.validate]) ∧
    Ev.credentialExchange ∉ (build_worker_context env token).2 ∧
    Ev.workerSearch ∉ (build_worker_context env token).2 := by
  have hb : build_worker_context env token = (.error e, [.validate]) := by
    unfold build_worker_context
    rw [h]
  refine ⟨hb, ?_, ?_⟩ <;> rw [hb] <;> simp

/-- Witness for C3 at a concrete failing environment. -/
theorem claim_C3_witness :
    build_worker_context env_fail_validation "tok" =
      (.error (.tokenValidation "Signature verification failed"), [.validate]) ∧
    Ev.credentialExchange ∉ (build_worker_context env_fail_validation "tok").2 ∧
    Ev.workerSearch ∉ (build_worker_context env_fail_validation "tok").2 :=
  claim_C3 env_fail_validation "tok" (.tokenValidation "Signature verification failed") rfl

/-! ## Claim C4 -/

/-- C4: whenever the tenant claim is absent or not in the allow-list,
`validate_with_options` fails with `TokenValidationError`, even when the
signature/audience/issuer step succeeded (the `.ok payload` hypothesis). -/
theorem claim_C4 (payload : Claims) (options : TokenValidationOptions)
    (h : ∀ t ∈ options.allowed_tenants, claim_get payload "tid" ≠ some (.s t)) :
    validate_with_options (.ok payload) options =
      .error (.tokenValidation "Token tenant is not allowed") := by
  have htid : tid_allowed payload options.allowed_tenants = false := by
    unfold tid_allowed
    cases hcg : claim_get payload "tid" with
    | none => rfl
    | some v =>
      by_contra hx
      rw [Bool.not_eq_false] at hx
      obtain ⟨t, ht, he⟩ := List.any_eq_true.mp hx
      exact h t ht (by rw [hcg, (py_eq_str_iff v t).mp he])
  simp [validate_with_options, htid]

/-- Witness for C4: a signed token from a foreign tenant is rejected. -/
theorem claim_C4_witness :
    validate_with_options (.ok [("tid", .s "tenant-evil")])
        { audience := "aud", issuer := "iss"
          scopes := ["workday_read"], allowed_tenants := ["tenant-good"] } =
      .error (.tokenValidation "Token tenant is not allowed") :=
  claim_C4 _ _ (by
    intro t ht h
    rw [List.mem_singleton] at ht
    subst ht
    have h2 : JVal.s "tenant-evil" = JVal.s "tenant-good" := Option.some.inj h
    have h3 : "tenant-evil" = "tenant-good" := by injection h2
    exact absurd h3 (by decide))

/-! ## Claim C7 -/

/-- C7: booking 2024-12-01 through 2024-12-03 produces exactly 3 day
entries; with unit `"Days"` every `dailyQuantity` is `"8"` (whatever
quantity was requested); with unit `"Hours"` and quantity `"4"` every
`dailyQuantity` is `"4"` unchanged. -/
theorem claim_C7 (q reason tid : String) :
    _create_days_array "2024-12-01" "2024-12-03" q "Days" reason tid = .ok
      [.obj [("date", .s "2024-12-01T08:00:00.000Z"), ("start", .s "2024-12-01T08:00:00.000Z"),
             ("end", .s "2024-12-01T17:00:00.000Z"), ("dailyQuantity", .s "8"),
             ("comment", .s reason), ("timeOffType", .obj [("id", .s tid)])],
       .obj [("date", .s "2024-12-02T08:00:00.000Z"), ("start", .s "2024-12-02T08:00:00.000Z"),
             ("end", .s "2024-12-02T17:00:00.000Z"), ("dailyQuantity", .s "8"),
             ("comment", .s reason), ("timeOffType", .obj [("id", .s tid)])],
       .obj [("date", .s "2024-12-03T08:00:00.000Z"), ("start", .s "2024-12-03T08:00:00.000Z"),
             ("end", .s "2024-12-03T17:00:00.000Z"), ("dailyQuantity", .s "8"),
             ("comment", .s reason), ("timeOffType", .obj [("id", .s tid)])]] ∧
    _create_days_array "2024-12-01" "2024-12-03" "4" "Hours" reason tid = .ok
      [.obj [("date", .s "2024-12-01T08:00:00.000Z"), ("start", .s "2024-12-01T08:00:00.000Z"),
             ("end", .s "2024-12-01T17:00:00.000Z"), ("dailyQuantity", .s "4"),
             ("comment", .s reason), ("timeOffType", .obj [("id", .s tid)])],
       .obj [("date", .s "2024-12-02T08:00:00.000Z"), ("start", .s "2024-12-02T08:00:00.000Z"),
             ("end", .s "2024-12-02T17:00:00.000Z"), ("dailyQuantity", .s "4"),
             ("comment", .s reason), ("timeOffType", .obj [("id", .s tid)])],
       .obj [("date", .s "2024-12-03T08:00:00.000Z"), ("start", .s "2024-12-03T08:00:00.000Z"),
             ("end", .s "2024-12-03T17:00:00.000Z"), ("dailyQuantity", .s "4"),
             ("comment", .s reason), ("timeOffType", .obj [("id", .s tid)])]] :=
  ⟨rfl, rfl⟩

/-! ## Claim C1 -/

/-- C1 counterexample: against an endpoint that always returns 401, the
provider does NOT fail after 1 attempt — tenacity has no `retry=` predicate,
so the `HTTPStatusError` is retried like any exception and the call fails
with `RetryError` after exactly 3 attempts. -/
theorem claim_C1_counterexample :
    get_access_token endpoint_always_401 = (.error (.retryError (.httpStatus 401)), 3) ∧
    (3 : Nat) ≠ 1 :=
  ⟨rfl, by decide⟩

/-- C1 as amended: every failing attempt — transient (timeout, 5xx,
connection error) or application-level (400/401) alike — is retried, up to 3
attempts total, with exponential backoff starting at 1 and capped at 8; an
endpoint failing twice with 503 and then succeeding yields the token after
exactly 3 attempts; after 3 failed attempts the last error surfaces wrapped
in `RetryError`. -/
theorem claim_C1 :
    (∀ (endpoint : Nat → HttpResult) (t : OAuthToken),
      token_attempt (endpoint 1) = .ok t → get_access_token endpoint = (.ok t, 1))
    ∧ (∀ (endpoint : Nat → HttpResult) (e1 : AttemptErr) (t : OAuthToken),
      token_attempt (endpoint 1) = .error e1 → token_attempt (endpoint 2) = .ok t →
      get_access_token endpoint = (.ok t, 2))
    ∧ (∀ (endpoint : Nat → HttpResult) (e1 e2 : AttemptErr) (t : OAuthToken),
      token_attempt (endpoint 1) = .error e1 → token_attempt (endpoint 2) = .error e2 →
      token_attempt (endpoint 3) = .ok t → get_access_token endpoint = (.ok t, 3))
    ∧ (∀ (endpoint : Nat → HttpResult) (e1 e2 e3 : AttemptErr),
      token_attempt (endpoint 1) = .error e1 → token_attempt (endpoint 2) = .error e2 →
      token_attempt (endpoint 3) = .error e3 →
      get_access_token endpoint = (.error (.retryError e3), 3))
    ∧ get_access_token endpoint_503_503_ok = (.ok ⟨.s "tok503", .s "Bearer", none⟩, 3)
    ∧ wait_exponential_1_8 1 = 1
    ∧ (∀ n : Nat, wait_exponential_1_8 n ≤ 8) := by
  refine ⟨?_, ?_, ?_, ?_, rfl, rfl, ?_⟩
  · intro ep t h
    simp [get_access_token, retry_go, h]
  · intro ep e1 t h1 h2
    simp [get_access_token, retry_go, h1, h2]
  · intro ep e1 e2 t h1 h2 h3
    simp [get_access_token, retry_go, h1, h2, h3]
  · intro ep e1 e2 e3 h1 h2 h3
    simp [get_access_token, retry_go, h1, h2, h3]
  · intro n
    have h : wait_exponential_1_8 n = max 1 (min 8 (2 ^ (n - 1))) := rfl
    rw [h]
    omega

/-- Witness for C1 (amended): a first-attempt success returns after exactly
one attempt. -/
theorem claim_C1_witness :
    get_access_token (fun _ => .response 200 (.ok (.obj [("access_token", .s "T")]))) =
      (.ok ⟨.s "T", .s "Bearer", none⟩, 1) :=
  claim_C1.1 _ _ rfl

/-! ## Claim C5 -/

theorem any_scope_strs (req : List String) (l : List String) :
    any_scope req (.strs l) = .ok (req.any (fun sc => l.contains sc)) := by
  induction req with
  | nil => rfl
  | cons sc rest ih =>
    unfold any_scope
    rw [show scope_in sc (.strs l) = .ok (l.contains sc) from rfl]
    cases h : l.contains sc
    · show any_scope rest (.strs l) = _
      rw [ih, List.any_cons, h, Bool.false_or]
    · show (Except.ok true : Except Err Bool) = _
      rw [List.any_cons, h, Bool.true_or]

theorem any_scope_vals (req : List String) (l : List JVal) :
    any_scope req (.vals l) = .ok (req.any (fun sc => l.any (fun v => py_eq_str v sc))) := by
  induction req with
  | nil => rfl
  | cons sc rest ih =>
    unfold any_scope
    rw [show scope_in sc (.vals l) = .ok (l.any (fun v => py_eq_str v sc)) from rfl]
    cases h : l.any (fun v => py_eq_str v sc)
    · show any_scope rest (.vals l) = _
      rw [ih, List.any_cons, h, Bool.false_or]
    · show (Except.ok true : Except Err Bool) = _
      rw [List.any_cons, h, Bool.true_or]

/-- After the tenant gate passes and with required scopes non-empty, the
outcome of `validate_with_options` is decided by the boolean scope check. -/
theorem validate_scope_bool (payload : Claims) (options : TokenValidationOptions)
    (htid : tid_allowed payload options.allowed_tenants = true)
    (hne : options.scopes ≠ []) (b : Bool)
    (hb : any_scope options.scopes (_extract_scopes payload) = .ok b) :
    (validate_with_options (.ok payload) options = .ok payload ↔ b = true) ∧
    (b = false → validate_with_options (.ok payload) options =
      .error (.tokenValidation "Token scope missing required permissions")) := by
  have hie : options.scopes.isEmpty = false := by
    cases hs : options.scopes with
    | nil => exact absurd hs hne
    | cons a l => rfl
  have hred : validate_with_options (.ok payload) options =
      (match any_scope options.scopes (_extract_scopes payload) with
       | .error e => .error e
       | .ok true => .ok payload
       | .ok false => .error (.tokenValidation "Token scope missing required permissions")) := by
    simp only [validate_with_options, htid, hie, Bool.not_eq_true, Bool.false_eq_true,
      if_false, Bool.true_eq_false]
    rfl
  rw [hred, hb]
  cases b
  · refine ⟨⟨fun h => absurd h (by simp), fun h => absurd h (by simp)⟩, fun _ => rfl⟩
  · exact ⟨⟨fun _ => rfl, fun _ => rfl⟩, fun h => absurd h (by simp)⟩

theorem anyb_strs_iff (req l : List String) :
    (req.any fun sc => l.contains sc) = true ↔ ∃ sc ∈ req, sc ∈ l := by
  simp [List.any_eq_true]

theorem anyb_vals_iff (req : List String) (l : List JVal) :
    (req.any fun sc => l.any fun v => py_eq_str v sc) = true ↔
      ∃ sc ∈ req, JVal.s sc ∈ l := by
  simp only [List.any_eq_true, py_eq_str_iff]
  constructor
  · rintro ⟨sc, hm, v, hv, rfl⟩
    exact ⟨sc, hm, hv⟩
  · rintro ⟨sc, hm, hv⟩
    exact ⟨sc, hm, .s sc, hv, rfl⟩

/-- C5 counterexample: a token whose required scope appears in the `roles`
claim is rejected when an (insufficient) `scp` claim is also present —
`_extract_scopes` consults `roles` only when `scp` is absent, so "appears in
either claim" does not make the gate pass. -/
theorem claim_C5_counterexample :
    validate_with_options (.ok scp_shadow_payload) scp_shadow_options =
      .error (.tokenValidation "Token scope missing required permissions") ∧
    claim_get scp_shadow_payload "roles" = some (.list [.s "workday_read"]) ∧
    "workday_read" ∈ scp_shadow_options.scopes :=
  ⟨rfl, rfl, by decide⟩

/-- C5 as amended: with the earlier gates passed and a non-empty required
scope set, the scope gate consults the space-split `scp` claim when `scp` is
present (passing iff a required scope occurs there — `roles` is ignored),
consults the `roles` list only when `scp` is absent, and fails when both are
absent. -/
theorem claim_C5 (payload : Claims) (options : TokenValidationOptions)
    (htid : tid_allowed payload options.allowed_tenants = true)
    (hne : options.scopes ≠ []) :
    (∀ raw, claim_get payload "scp" = some (.s raw) →
      (validate_with_options (.ok payload) options = .ok payload ↔
        ∃ sc ∈ options.scopes, sc ∈ py_split raw ' '))
    ∧ (claim_get payload "scp" = none →
      ∀ rs, claim_get payload "roles" = some (.list rs) →
        (validate_with_options (.ok payload) options = .ok payload ↔
          ∃ sc ∈ options.scopes, JVal.s sc ∈ rs))
    ∧ (claim_get payload "scp" = none → claim_get payload "roles" = none →
      validate_with_options (.ok payload) options =
        .error (.tokenValidation "Token scope missing required permissions")) := by
  refine ⟨?_, ?_, ?_⟩
  · intro raw hscp
    have hex : _extract_scopes payload = .strs (py_split raw ' ') := by
      simp [_extract_scopes, hscp]
    have hb : any_scope options.scopes (_extract_scopes payload) =
        .ok (options.scopes.any fun sc => (py_split raw ' ').contains sc) := by
      rw [hex, any_scope_strs]
    exact ((validate_scope_bool payload options htid hne _ hb).1).trans
      (anyb_strs_iff _ _)
  · intro hscp rs hroles
    have hex : _extract_scopes payload = .vals rs := by
      simp [_extract_scopes, hscp, hroles]
    have hb : any_scope options.scopes (_extract_scopes payload) =
        .ok (options.scopes.any fun sc => rs.any fun v => py_eq_str v sc) := by
      rw [hex, any_scope_vals]
    exact ((validate_scope_bool payload options htid hne _ hb).1).trans
      (anyb_vals_iff _ _)
  · intro hscp hroles
    have hex : _extract_scopes payload = .vals [] := by
      simp [_extract_scopes, hscp, hroles]
    have hb : any_scope options.scopes (_extract_scopes payload) =
        .ok (options.scopes.any fun sc => List.any [] fun v => py_eq_str v sc) := by
      rw [hex, any_scope_vals]
    refine (validate_scope_bool payload options htid hne _ hb).2 ?_
    simp

/-- Witness for C5 (amended): a token whose `scp` claim carries the required
scope passes the gate. -/
theorem claim_C5_witness :
    validate_with_options (.ok [("tid", .s "t0"), ("scp", .s "workday_read profile")])
        scp_shadow_options = .ok [("tid", .s "t0"), ("scp", .s "workday_read profile")] :=
  ((claim_C5 [("tid", .s "t0"), ("scp", .s "workday_read profile")] scp_shadow_options
      rfl (by decide)).1 "workday_read profile" rfl).mpr
    ⟨"workday_read", by decide, by decide⟩

/-! ## Claim C6 -/

/-- C6: identity resolution tries its strategies in strict order. With
username `alice@contoso.com`: a directory lookup returning
`employeeId = "E123"` resolves to `"E123"` (not the username-derived
fallback); when every directory lookup throws, the failure is swallowed and
resolution falls back to the literal `"alice"`; and a payload with no
username/object-id/employee-id claim fails with the identity-resolution
`ValueError`. -/
theorem claim_C6 :
    (∀ (env : Env) (gt : String) (u : GraphUser),
      env.graph_token = .ok gt →
      env.graph_user "alice@contoso.com" = .ok u →
      u.employeeId = some "E123" →
      (extract_worker_id_from_token env alice_claims).1 = .ok "E123")
    ∧ (∀ (env : Env),
      (∀ ident, ∃ m, env.graph_user ident = .error m) →
      (extract_worker_id_from_token env alice_claims).1 = .ok "alice")
    ∧ (∀ (env : Env),
      extract_worker_id_from_token env [] =
        (.error (.valueError "Worker ID could not be determined from token"), [])) := by
  refine ⟨?_, ?_, ?_⟩
  · intro env gt u hgt hgu hemp
    have hg : get_employee_id_from_graph env "alice@contoso.com" =
        (.ok "E123", [.graphTokenRequest, .graphLookup "alice@contoso.com"]) := by
      simp [get_employee_id_from_graph, hgt, hgu, hemp]
    have hs1 : strategy_username env alice_claims =
        (some "E123", [.graphTokenRequest, .graphLookup "alice@contoso.com"]) := by
      unfold strategy_username
      rw [show username_of alice_claims = some (.s "alice@contoso.com") from rfl]
      simp [graph_strategy, hg,
        show truthy (JVal.s "alice@contoso.com") = true from by decide]
    unfold extract_worker_id_from_token
    rw [hs1]
  · intro env hgu
    obtain ⟨evs1, hs1⟩ : ∃ evs1, strategy_username env alice_claims = (none, evs1) := by
      obtain ⟨m, hm⟩ := hgu "alice@contoso.com"
      cases hgt : env.graph_token with
      | error mt =>
        refine ⟨[.graphTokenRequest], ?_⟩
        unfold strategy_username
        rw [show username_of alice_claims = some (.s "alice@contoso.com") from rfl]
        simp [graph_strategy, get_employee_id_from_graph, hgt,
          show truthy (JVal.s "alice@contoso.com") = true from by decide]
      | ok gt =>
        refine ⟨[.graphTokenRequest, .graphLookup "alice@contoso.com"], ?_⟩
        unfold strategy_username
        rw [show username_of alice_claims = some (.s "alice@contoso.com") from rfl]
        simp [graph_strategy, get_employee_id_from_graph, hgt, hm,
          show truthy (JVal.s "alice@contoso.com") = true from by decide]
    unfold extract_worker_id_from_token
    rw [hs1]
    rfl
  · intro env
    have hs1 : strategy_username env [] = (none, []) := rfl
    unfold extract_worker_id_from_token
    rw [hs1]
    rfl

/-- Witness for C6: the three scenarios at concrete environments. -/
theorem claim_C6_witness :
    (extract_worker_id_from_token env_graph_e123 alice_claims).1 = .ok "E123"
    ∧ (extract_worker_id_from_token env_graph_down alice_claims).1 = .ok "alice"
    ∧ extract_worker_id_from_token env_graph_down [] =
        (.error (.valueError "Worker ID could not be determined from token"), []) :=
  ⟨claim_C6.1 env_graph_e123 "graph-token"
      { employeeId := some "E123", userPrincipalName := some "alice@contoso.com" }
      rfl rfl rfl,
   claim_C6.2.1 env_graph_down (fun _ => ⟨"network error", rfl⟩),
   claim_C6.2.2 env_graph_down⟩

/-! ## Claim C8 -/

/-- C8 counterexample: (i) an HTTP 400 whose body is
`\x7b"errors": []\x7d` — none of the `errors[0].error` / `error` / `message`
fields is present — does not surface the generic status-code message: the
`[0]` indexing raises `IndexError` instead; (ii) a non-2xx response that is
not 4xx/5xx (here 302) is not inspected at all — `response.is_error` is
false, so no `DownstreamApiError` is raised even with an error body. -/
theorem claim_C8_counterexample :
    tool_book_leave env_resp_empty_errors (some req_bearer)
        (some "2024-12-01") (some "2024-12-01") (some "TOT1") "8" "Hours" "vacation" =
      (.error .indexError,
       [.validate, .credentialExchange, .workerSearch, .timeOffPost]) ∧
    Err.indexError ≠ .valueError ("Workday API error 400") ∧
    (tool_book_leave env_resp_302 (some req_bearer)
        (some "2024-12-01") (some "2024-12-01") (some "TOT1") "8" "Hours" "vacation").1 ≠
      .error (.valueError "Absence type invalid") := by
  refine ⟨rfl, by decide, ?_⟩
  intro h
  exact Except.noConfusion h

/-- C8 as amended: for every booking mutation answered with a 4xx/5xx
response, the JSON body is inspected for `errors[0].error`, then `error`,
then `message` to build the failure reason — provided the `errors` field,
when present, is a non-empty array of objects (otherwise the indexing
itself raises) — and a generic status-code message is used when none of the
fields is present; the concrete 400 response with
`\x7b"errors":[\x7b"error":"Absence type invalid"\x7d]\x7d` surfaces the
booking failure with message exactly `"Absence type invalid"`. -/
theorem claim_C8 :
    tool_book_leave env_ok (some req_bearer)
        (some "2024-12-01") (some "2024-12-01") (some "TOT1") "8" "Hours" "vacation" =
      (.error (.valueError "Absence type invalid"),
       [.validate, .credentialExchange, .workerSearch, .timeOffPost])
    ∧ (∀ (fs : List (String × JVal)) (status : Nat) (e0 : List (String × JVal))
        (rest : List JVal) (v : JVal),
        assoc_get fs "errors" = some (.list (.obj e0 :: rest)) →
        assoc_get e0 "error" = some v → truthy v = true →
        mutation_error_message (.obj fs) status = .ok (pyStr v))
    ∧ (∀ (fs : List (String × JVal)) (status : Nat) (v : JVal),
        assoc_get fs "errors" = none → assoc_get fs "error" = some v → truthy v = true →
        mutation_error_message (.obj fs) status = .ok (pyStr v))
    ∧ (∀ (fs : List (String × JVal)) (status : Nat) (v : JVal),
        assoc_get fs "errors" = none → assoc_get fs "error" = none →
        assoc_get fs "message" = some v → truthy v = true →
        mutation_error_message (.obj fs) status = .ok (pyStr v))
    ∧ (∀ (fs : List (String × JVal)) (status : Nat),
        assoc_get fs "errors" = none → assoc_get fs "error" = none →
        assoc_get fs "message" = none →
        mutation_error_message (.obj fs) status =
          .ok ("Workday API error " ++ toString status)) := by
  refine ⟨rfl, ?_, ?_, ?_, ?_⟩
  all_goals intro fs status
  · intro e0 rest v h1 h2 h3
    simp [mutation_error_message, h1, h2, py_index0, py_get, py_or, truthyO, h3,
      show assoc_get ([] : List (String × JVal)) "error" = none from rfl]
  · intro v h1 h2 h3
    simp [mutation_error_message, h1, h2, py_index0, py_get, py_or, truthyO, h3,
      show assoc_get ([] : List (String × JVal)) "error" = none from rfl]
  · intro v h1 h2 h3 h4
    simp [mutation_error_message, h1, h2, h3, py_index0, py_get, py_or, truthyO, h4,
      show assoc_get ([] : List (String × JVal)) "error" = none from rfl]
  · intro h1 h2 h3
    simp [mutation_error_message, h1, h2, h3, py_index0, py_get, py_or, truthyO,
      show assoc_get ([] : List (String × JVal)) "error" = none from rfl]

/-- Witness for C8 (amended): a 500 body with none of the three fields gets
the generic status-code message. -/
theorem claim_C8_witness :
    mutation_error_message (.obj [("note", .null)]) 500 =
      .ok ("Workday API error 500") :=
  claim_C8.2.2.2.2 [("note", .null)] 500 rfl rfl rfl

/-! ## Claim C9 -/

theorem toDigitsCore_length_le (b : Nat) :
    ∀ (fuel n : Nat) (ds : List Char), ds.length ≤ (Nat.toDigitsCore b fuel n ds).length := by
  intro fuel
  induction fuel with
  | zero => intro n ds; simp [Nat.toDigitsCore]
  | succ fuel ih =>
    intro n ds
    simp only [Nat.toDigitsCore]
    split
    · simp
    · exact le_trans (by simp) (ih (n / b) ((n % b).digitChar :: ds))

theorem nat_repr_ne_empty (n : Nat) : Nat.repr n ≠ "" := by
  intro h
  have hd : (Nat.toDigits 10 n) = [] := by
    have := congrArg String.data h
    simpa [Nat.repr, List.asString] using this
  unfold Nat.toDigits at hd
  revert hd
  simp only [Nat.toDigitsCore]
  split
  · simp
  · intro h2
    have := toDigitsCore_length_le 10 n (n / 10) ((n % 10).digitChar :: [])
    rw [h2] at this
    simp at this

theorem string_append_ne_empty_left (s t : String) (h : s ≠ "") : s ++ t ≠ "" := by
  intro he
  apply h
  have hd : s.data ++ t.data = ([] : List Char) := congrArg String.data he
  have : s.data = [] := by
    cases hs : s.data with
    | nil => rfl
    | cons c cs => rw [hs] at hd; simp at hd
  cases s
  simp at this
  simp [this]

theorem int_toString_ne_empty (i : Int) : toString i ≠ "" := by
  show Int.repr i ≠ ""
  cases i with
  | ofNat m => exact nat_repr_ne_empty m
  | negSucc m =>
    show "-" ++ Nat.repr (m + 1) ≠ ""
    exact string_append_ne_empty_left _ _ (by decide)

/-- A truthy JSON value never renders through `str()` as the empty string. -/
theorem truthy_pyStr_ne (v : JVal) (h : truthy v = true) : pyStr v ≠ "" := by
  cases v with
  | null => simp [truthy] at h
  | b bv =>
    cases bv
    · simp [truthy] at h
    · decide
  | n i => exact int_toString_ne_empty i
  | f q =>
    show ratRepr q ≠ ""
    unfold ratRepr
    split
    · exact string_append_ne_empty_left _ _ (int_toString_ne_empty q.num)
    · exact string_append_ne_empty_left _ _
        (string_append_ne_empty_left _ _ (int_toString_ne_empty q.num))
  | s sv =>
    simp only [truthy, ne_eq, decide_eq_true_eq] at h
    exact h
  | list vs =>
    show ("[" ++ String.intercalate ", " (pyRepr.reprList vs) ++ "]") ≠ ""
    exact string_append_ne_empty_left _ "]"
      (string_append_ne_empty_left "[" _ (by decide))
  | obj fs =>
    show ("\x7b" ++ String.intercalate ", " (pyRepr.reprFields fs) ++ "\x7d") ≠ ""
    exact string_append_ne_empty_left _ "\x7d"
      (string_append_ne_empty_left "\x7b" _ (by decide))

theorem graph_ok_ne_empty (env : Env) (hupn : GraphUpnOk env)
    (ident r : String) (evs : List Ev)
    (h : get_employee_id_from_graph env ident = (.ok r, evs)) : r ≠ "" := by
  unfold get_employee_id_from_graph at h
  cases hgt : env.graph_token with
  | error m => rw [hgt] at h; simp at h
  | ok gt =>
    rw [hgt] at h
    cases hgu : env.graph_user ident with
    | error m => rw [hgu] at h; simp at h
    | ok u =>
      rw [hgu] at h
      have hr : (match u.employeeId with
        | some e =>
          if e ≠ "" then Except.ok e
          else
            match u.userPrincipalName with
            | some upn =>
              if upn ≠ "" then Except.ok ((py_split upn '@').headD "")
              else Except.error (Err.valueError "Unable to determine employee ID from Microsoft Graph")
            | none => Except.error (Err.valueError "Unable to determine employee ID from Microsoft Graph")
        | none =>
          match u.userPrincipalName with
          | some upn =>
            if upn ≠ "" then Except.ok ((py_split upn '@').headD "")
            else Except.error (Err.valueError "Unable to determine employee ID from Microsoft Graph")
          | none => Except.error (Err.valueError "Unable to determine employee ID from Microsoft Graph")) =
          .ok r := congrArg Prod.fst h
      have hupn1 : ∀ upn, u.userPrincipalName = some upn →
          (match u.userPrincipalName with
           | some upn =>
             if upn ≠ "" then Except.ok ((py_split upn '@').headD "")
             else Except.error (Err.valueError "Unable to determine employee ID from Microsoft Graph")
           | none => Except.error (Err.valueError "Unable to determine employee ID from Microsoft Graph")) =
            .ok r → r ≠ "" := by
        intro upn hu h2
        rw [hu] at h2
        by_cases hne : upn = ""
        · subst hne; simp at h2
        · simp [hne] at h2
          rw [← h2, ← List.headD_eq_head?]
          exact hupn ident u hgu upn hu
      cases hemp : u.employeeId with
      | some e =>
        rw [hemp] at hr
        by_cases hne : e = ""
        · subst hne
          simp only [ne_eq, not_true_eq_false, if_false] at hr
          cases hu : u.userPrincipalName with
          | some upn => exact hupn1 upn hu (by rw [hu]; rw [hu] at hr; exact hr)
          | none => rw [hu] at hr; simp at hr
        · simp [hne] at hr
          exact hr ▸ hne
      | none =>
        rw [hemp] at hr
        cases hu : u.userPrincipalName with
        | some upn => exact hupn1 upn hu (by rw [hu]; rw [hu] at hr; exact hr)
        | none => rw [hu] at hr; simp at hr

theorem graph_strategy_some (env : Env) (v : JVal) (r : String) (evs : List Ev)
    (h : graph_strategy env v = (some r, evs)) :
    ∃ ident, get_employee_id_from_graph env ident = (.ok r, evs) := by
  unfold graph_strategy at h
  cases v with
  | s u =>
    dsimp only at h
    cases hg : get_employee_id_from_graph env u with
    | mk res gevs =>
      rw [hg] at h
      cases res with
      | ok x => simp at h; exact ⟨u, by rw [hg, h.1, h.2]⟩
      | error e => simp at h
  | null => simp at h
  | b bv => simp at h
  | n i => simp at h
  | f q => simp at h
  | list vs => simp at h
  | obj fs => simp at h

theorem strategy_username_some (env : Env) (payload : Claims) (r : String) (evs : List Ev)
    (h : strategy_username env payload = (some r, evs)) :
    ∃ ident, get_employee_id_from_graph env ident = (.ok r, evs) := by
  unfold strategy_username at h
  cases hu : username_of payload with
  | none => rw [hu] at h; simp at h
  | some v =>
    rw [hu] at h
    dsimp only at h
    by_cases ht : truthy v = true
    · rw [if_pos ht] at h
      exact graph_strategy_some env v r evs h
    · rw [if_neg (by simpa using ht)] at h
      simp at h

theorem strategy_oid_some (env : Env) (payload : Claims) (r : String) (evs : List Ev)
    (h : strategy_oid env payload = (some r, evs)) :
    ∃ ident, get_employee_id_from_graph env ident = (.ok r, evs) := by
  unfold strategy_oid at h
  cases hu : claim_get payload "oid" with
  | none => rw [hu] at h; simp at h
  | some v =>
    rw [hu] at h
    dsimp only at h
    by_cases ht : truthy v = true
    · rw [if_pos ht] at h
      exact graph_strategy_some env _ r evs h
    · rw [if_neg (by simpa using ht)] at h
      simp at h

theorem first_truthy_key_ne_empty (payload : Claims) (ks : List String) (r : String)
    (h : first_truthy_key payload ks = some r) : r ≠ "" := by
  induction ks with
  | nil => simp [first_truthy_key] at h
  | cons k ks ih =>
    unfold first_truthy_key at h
    cases hg : claim_get payload k with
    | none => rw [hg] at h; exact ih h
    | some v =>
      rw [hg] at h
      dsimp only at h
      by_cases ht : truthy v = true
      · rw [if_pos ht] at h
        have : pyStr v = r := by injection h
        exact this ▸ truthy_pyStr_ne v ht
      · rw [if_neg (by simpa using ht)] at h
        exact ih h

theorem strategy_fallback_ok (payload : Claims) (r : String)
    (husr : ∀ u, username_of payload = some (.s u) → (py_split u '@').headD "" ≠ "")
    (h : strategy_fallback payload = .ok r) : r ≠ "" := by
  unfold strategy_fallback at h
  cases hu : username_of payload with
  | none => rw [hu] at h; simp at h
  | some v =>
    rw [hu] at h
    cases v with
    | s u =>
      dsimp only at h
      by_cases hne : u = ""
      · subst hne; simp at h
      · simp [hne] at h
        rw [← h, ← List.headD_eq_head?]
        exact husr u hu
    | null => simp [truthy] at h
    | b bv => cases bv <;> simp [truthy] at h
    | n i =>
      dsimp only at h
      split at h <;> simp at h
    | f q =>
      dsimp only at h
      split at h <;> simp at h
    | list vs =>
      dsimp only at h
      split at h <;> simp at h
    | obj fs =>
      dsimp only at h
      split at h <;> simp at h

theorem extract_ok_ne_empty (env : Env) (payload : Claims)
    (hupn : GraphUpnOk env)
    (husr : ∀ u, username_of payload = some (.s u) → (py_split u '@').headD "" ≠ "")
    (r : String) (evs : List Ev)
    (h : extract_worker_id_from_token env payload = (.ok r, evs)) : r ≠ "" := by
  unfold extract_worker_id_from_token at h
  cases hs1 : strategy_username env payload with
  | mk o1 evs1 =>
    rw [hs1] at h
    cases o1 with
    | some r1 =>
      simp at h
      obtain ⟨ident, hg⟩ := strategy_username_some env payload r1 evs1 hs1
      exact h.1 ▸ graph_ok_ne_empty env hupn ident r1 _ hg
    | none =>
      cases hs2 : strategy_oid env payload with
      | mk o2 evs2 =>
        rw [hs2] at h
        cases o2 with
        | some r2 =>
          simp at h
          obtain ⟨ident, hg⟩ := strategy_oid_some env payload r2 evs2 hs2
          exact h.1 ▸ graph_ok_ne_empty env hupn ident r2 _ hg
        | none =>
          cases hk : first_truthy_key payload
              ["EmployeeId", "employeeId", "employee_id", "extension_EmployeeId"] with
          | some rk =>
            rw [hk] at h
            simp at h
            exact h.1 ▸ first_truthy_key_ne_empty payload _ rk hk
          | none =>
            rw [hk] at h
            simp at h
            exact strategy_fallback_ok payload r husr h.1

theorem retry_ok_attempt (endpoint : Nat → HttpResult) :
    ∀ (fuel a : Nat) (t : OAuthToken) (n : Nat),
    retry_go endpoint a fuel = (.ok t, n) → token_attempt (endpoint n) = .ok t := by
  intro fuel
  induction fuel with
  | zero => intro a t n h; simp [retry_go] at h
  | succ fuel ih =>
    intro a t n h
    unfold retry_go at h
    cases hatt : token_attempt (endpoint a) with
    | ok t' =>
      rw [hatt] at h
      simp at h
      rw [← h.2, ← h.1]
      exact hatt
    | error e =>
      rw [hatt] at h
      by_cases hf : fuel = 0
      · subst hf; simp at h
      · simp only [hf, if_false] at h
        exact ih (a + 1) t n h

theorem token_ok_shape (env : Env) (v : JVal) (evs : List Ev)
    (h : get_workday_access_token env = (.ok v, evs))
    (h1 : TokenEndpointOk env) :
    ∃ s, v = .s s ∧ s ≠ "" := by
  unfold get_workday_access_token at h
  cases hga : get_access_token env.token_endpoint with
  | mk res n =>
    rw [hga] at h
    cases res with
    | error e => simp at h
    | ok t =>
      simp at h
      have hat : token_attempt (env.token_endpoint n) = .ok t :=
        retry_ok_attempt _ 3 1 t n hga
      unfold token_attempt at hat
      cases hep : env.token_endpoint n with
      | connectionError => rw [hep] at hat; simp at hat
      | timeout => rw [hep] at hat; simp at hat
      | response st body =>
        rw [hep] at hat
        dsimp only at hat
        by_cases hst : st < 200 ∨ 300 ≤ st
        · rw [if_pos hst] at hat; simp at hat
        · rw [if_neg hst] at hat
          cases body with
          | error m => simp at hat
          | ok pl =>
            cases pl with
            | obj fs =>
              dsimp only at hat
              cases hw : assoc_get fs "access_token" with
              | none => rw [hw] at hat; simp at hat
              | some w =>
                rw [hw] at hat
                have hv : v = w := by
                  have : t.access_token = w := by
                    injection hat with hat'
                    rw [← hat']
                  rw [← h.1, this]
                obtain ⟨s, hs, hne⟩ := h1 n st (.ok (.obj fs)) fs hep rfl w hw
                exact ⟨s, hv ▸ hs, hne⟩
            | null => simp at hat
            | b bv => simp at hat
            | n i => simp at hat
            | f q => simp at hat
            | s sv => simp at hat
            | list vs => simp at hat

/-- C9 counterexample: nothing enforces the invariant. A token endpoint
whose JSON carries `access_token: ""` flows into a successfully returned
context whose downstream token is the empty string. -/
theorem claim_C9_counterexample :
    build_worker_context env_empty_token "tok" =
      (.ok { payload := payload_ok
             worker_id := "E1"
             workday_id := .s "WID1"
             workday_access_token := .s ""
             worker_data := .obj [("id", .s "WID1")] },
       [.validate, .credentialExchange, .workerSearch]) := rfl

/-- C9 as amended: on every successful return of `build_worker_context`,
`worker_id` is a non-empty string and the downstream token is a non-empty
string, PROVIDED the external responses are well-formed — the token
endpoint only ever returns non-empty string `access_token` values, and any
userPrincipalName or username whose local part is used is non-empty before
the `"@"`. The code itself performs no such check. -/
theorem claim_C9 (env : Env) (token : String) (wc : WorkerContext) (evs : List Ev)
    (hb : build_worker_context env token = (.ok wc, evs))
    (h1 : TokenEndpointOk env)
    (h2 : GraphUpnOk env)
    (h3 : ∀ u, username_of wc.payload = some (.s u) → (py_split u '@').headD "" ≠ "") :
    (∃ s, wc.workday_access_token = .s s ∧ s ≠ "") ∧ wc.worker_id ≠ "" := by
  unfold build_worker_context at hb
  cases hv : entra_validate (env.decode token) env.settings with
  | error e => rw [hv] at hb; simp at hb
  | ok payload =>
    rw [hv] at hb
    dsimp only at hb
    cases hx : extract_worker_id_from_token env payload with
    | mk r1 evs1 =>
      rw [hx] at hb
      cases r1 with
      | error e => simp at hb
      | ok wid =>
        dsimp only at hb
        cases hg : get_workday_access_token env with
        | mk r2 evs2 =>
          rw [hg] at hb
          cases r2 with
          | error e => simp at hb
          | ok atk =>
            dsimp only at hb
            cases hs : search_worker_in_workday env wid with
            | mk r3 evs3 =>
              rw [hs] at hb
              cases r3 with
              | error e => simp at hb
              | ok wdta =>
                dsimp only at hb
                cases hid : py_getD wdta "id" (.s wid) with
                | error e => rw [hid] at hb; simp at hb
                | ok wdid =>
                  rw [hid] at hb
                  simp at hb
                  obtain ⟨hwc, -⟩ := hb
                  subst hwc
                  constructor
                  · exact token_ok_shape env atk evs2 hg h1
                  · exact extract_ok_ne_empty env payload h2 h3 wid evs1 hx

/-- Witness for C9 (amended) at the healthy environment. -/
theorem claim_C9_witness :
    (∃ s, (JVal.s "wd-token") = JVal.s s ∧ s ≠ "") ∧ ("E1" : String) ≠ "" :=
  claim_C9 env_ok "tok"
    { payload := payload_ok
      worker_id := "E1"
      workday_id := .s "WID1"
      workday_access_token := .s "wd-token"
      worker_data := .obj [("id", .s "WID1")] }
    [.validate, .credentialExchange, .workerSearch]
    rfl
    (by
      intro a st body fs hep hbody w hw
      have hbd : (Except.ok (JVal.obj [("access_token", JVal.s "wd-token")]) :
          Except String JVal) = body := by injection hep
      rw [← hbd] at hbody
      have hobj : JVal.obj [("access_token", JVal.s "wd-token")] = JVal.obj fs := by
        injection hbody
      have hfs : [("access_token", JVal.s "wd-token")] = fs := by injection hobj
      rw [← hfs] at hw
      exact ⟨"wd-token", (Option.some.inj hw).symm, by decide⟩)
    (fun ident u hgu => Except.noConfusion hgu)
    (fun u hu => Option.noConfusion hu)

/-! ## Claim C10 -/

theorem retry_go_attempt_le (endpoint : Nat → HttpResult) :
    ∀ (fuel a : Nat), a ≤ (retry_go endpoint a fuel).2 := by
  intro fuel
  induction fuel with
  | zero => intro a; simp [retry_go]
  | succ fuel ih =>
    intro a
    unfold retry_go
    cases hatt : token_attempt (endpoint a) with
    | ok t => simp
    | error e =>
      by_cases hf : fuel = 0
      · subst hf; simp
      · simp only [hf, if_false]
        exact le_trans (Nat.le_succ a) (ih (a + 1))

theorem get_workday_token_events (env : Env) (v : JVal) (evs : List Ev)
    (h : get_workday_access_token env = (.ok v, evs)) :
    Ev.credentialExchange ∈ evs := by
  unfold get_workday_access_token at h
  cases hga : get_access_token env.token_endpoint with
  | mk res a =>
    rw [hga] at h
    cases res with
    | error e => simp at h
    | ok t =>
      simp at h
      have ha : 1 ≤ a := by
        have h2 := retry_go_attempt_le env.token_endpoint 3 1
        rw [show retry_go env.token_endpoint 1 3 =
          get_access_token env.token_endpoint from rfl, hga] at h2
        exact h2
      rw [← h.2]
      exact List.mem_replicate.mpr ⟨by omega, rfl⟩

/-- A successfully built worker context always performed the validation,
the credential exchange (at least one POST) and the worker search, in its
recorded trace. -/
theorem build_ok_events (env : Env) (token : String) (wc : WorkerContext) (evs : List Ev)
    (hb : build_worker_context env token = (.ok wc, evs)) :
    Ev.validate ∈ evs ∧ Ev.credentialExchange ∈ evs ∧ Ev.workerSearch ∈ evs := by
  unfold build_worker_context at hb
  cases hv : entra_validate (env.decode token) env.settings with
  | error e => rw [hv] at hb; simp at hb
  | ok payload =>
    rw [hv] at hb
    dsimp only at hb
    cases hx : extract_worker_id_from_token env payload with
    | mk r1 evs1 =>
      rw [hx] at hb
      cases r1 with
      | error e => simp at hb
      | ok wid =>
        dsimp only at hb
        cases hg : get_workday_access_token env with
        | mk r2 evs2 =>
          rw [hg] at hb
          cases r2 with
          | error e => simp at hb
          | ok atk =>
            dsimp only at hb
            cases hs : search_worker_in_workday env wid with
            | mk r3 evs3 =>
              rw [hs] at hb
              cases r3 with
              | error e => simp at hb
              | ok wdta =>
                dsimp only at hb
                cases hid : py_getD wdta "id" (.s wid) with
                | error e => rw [hid] at hb; simp at hb
                | ok wdid =>
                  rw [hid] at hb
                  simp at hb
                  obtain ⟨-, hevs⟩ := hb
                  have hcred : Ev.credentialExchange ∈ evs2 :=
                    get_workday_token_events env atk evs2 hg
                  have hsearch : evs3 = [Ev.workerSearch] :=
                    (congrArg Prod.snd hs).symm
                  rw [← hevs, hsearch]
                  refine ⟨by simp, by simp [hcred], by simp⟩

/-- C10: with a valid bearer token but a missing required argument,
`tool_book_leave` runs the ENTIRE identity bridge first — validation,
worker-id resolution, credential exchange and worker search all happen,
with their network side effects in the trace — and only then raises the
missing-argument error. -/
theorem claim_C10 (env : Env) (ctx : Option Request) (token : String)
    (wc : WorkerContext) (evs : List Ev) (sd ed tid : Option String) (q u r : String)
    (htok : _get_auth_token ctx = .ok token)
    (hb : build_worker_context env token = (.ok wc, evs))
    (hmiss : truthyOS sd = false ∨ truthyOS ed = false ∨ truthyOS tid = false) :
    tool_book_leave env ctx sd ed tid q u r =
      (.error (.valueError "startDate, endDate, and timeOffTypeId are required"), evs)
    ∧ Ev.validate ∈ evs ∧ Ev.credentialExchange ∈ evs ∧ Ev.workerSearch ∈ evs := by
  refine ⟨?_, build_ok_events env token wc evs hb⟩
  have hcond : (¬ truthyOS sd = true ∨ ¬ truthyOS ed = true ∨ ¬ truthyOS tid = true) := by
    rcases hmiss with h | h | h
    · exact Or.inl (by simp [h])
    · exact Or.inr (Or.inl (by simp [h]))
    · exact Or.inr (Or.inr (by simp [h]))
  unfold tool_book_leave
  rw [htok]
  dsimp only
  rw [hb]
  dsimp only
  rw [if_pos hcond]

/-- Witness for C10 at the healthy environment with all three required
arguments missing. -/
theorem claim_C10_witness :
    tool_book_leave env_ok (some req_bearer) none none none "8" "Hours" "r" =
      (.error (.valueError "startDate, endDate, and timeOffTypeId are required"),
       [.validate, .credentialExchange, .workerSearch])
    ∧ Ev.validate ∈ ([.validate, .credentialExchange, .workerSearch] : List Ev)
    ∧ Ev.credentialExchange ∈ ([.validate, .credentialExchange, .workerSearch] : List Ev)
    ∧ Ev.workerSearch ∈ ([.validate, .credentialExchange, .workerSearch] : List Ev) :=
  claim_C10 env_ok (some req_bearer) "tok"
    { payload := payload_ok
      worker_id := "E1"
      workday_id := .s "WID1"
      workday_access_token := .s "wd-token"
      worker_data := .obj [("id", .s "WID1")] }
    [.validate, .credentialExchange, .workerSearch] none none none "8" "Hours" "r"
    rfl rfl (Or.inl rfl)

/-! ## Claim C2 -/

/-- C2 counterexample: `search_learning_content` is a registered tool, yet a
successful run of it performs NO worker search (and builds no worker
context): its trace is validation, one credential exchange, and the learning
query — `build_worker_context` is never invoked on the token. -/
theorem claim_C2_counterexample :
    tool_search_learning_content env_ok (some req_bearer) none none =
      (.ok (.obj [("success", .b true), ("content", .list []), ("total", .n 0)]),
       [.validate, .credentialExchange, .learningSearch]) ∧
    Ev.workerSearch ∉ ([.validate, .credentialExchange, .learningSearch] : List Ev) ∧
    "search_learning_content" ∈ WORKDAY_TOOL_SPECS.map ToolSpec.name :=
  ⟨rfl, by decide, by simp [WORKDAY_TOOL_SPECS]⟩

/-- C2 as amended: every registered tool first extracts the bearer token via
`_get_auth_token` and aborts with its credential error, before any network
traffic, when the header is missing or malformed. Every tool except
`search_learning_content` then calls `build_worker_context` on that token
before its business logic: a bridge failure propagates unchanged with
exactly the bridge's trace, and on bridge success the tool's trace extends
the bridge's trace (business calls strictly after). `change_business_title`
additionally validates its required argument between the two steps (the
hypothesis), and `search_learning_content` performs token validation and a
credential exchange but never builds a worker context. -/
theorem claim_C2 : ∀ spec ∈ WORKDAY_TOOL_SPECS,
    ∀ (env : Env) (ctx : Option Request) (args : ToolArgs),
    (∀ e, _get_auth_token ctx = .error e → spec.run env ctx args = (.error e, []))
    ∧ (∀ token, _get_auth_token ctx = .ok token →
        spec.name ≠ "search_learning_content" →
        (spec.name = "change_business_title" → truthyOS args.proposedBusinessTitle = true) →
        (∀ e evs, build_worker_context env token = (.error e, evs) →
          spec.run env ctx args = (.error e, evs))
        ∧ (∀ wc evs, build_worker_context env token = (.ok wc, evs) →
          ∃ bevs, (spec.run env ctx args).2 = evs ++ bevs)) := by
  intro spec hspec env ctx args
  simp only [WORKDAY_TOOL_SPECS, List.mem_cons, List.not_mem_nil, or_false] at hspec
  rcases hspec with rfl | rfl | rfl | rfl | rfl | rfl | rfl | rfl | rfl | rfl | rfl
  · -- get_worker
    refine ⟨?_, ?_⟩
    · intro e he
      show tool_get_worker env ctx = (.error e, [])
      unfold tool_get_worker
      rw [he]
    · intro token htok hne htitle
      refine ⟨?_, ?_⟩
      · intro e evs hbe
        show tool_get_worker env ctx = (.error e, evs)
        unfold tool_get_worker
        rw [htok]
        dsimp only
        rw [hbe]
      · intro wc evs hbo
        show ∃ bevs, (tool_get_worker env ctx).2 = evs ++ bevs
        unfold tool_get_worker
        rw [htok]
        dsimp only
        rw [hbo]
        dsimp only
        repeat' split
        all_goals first | exact ⟨_, rfl⟩ | exact ⟨[], by simp⟩
  · -- get_leave_balances
    refine ⟨?_, ?_⟩
    · intro e he
      show tool_get_leave_balances env ctx = (.error e, [])
      unfold tool_get_leave_balances
      rw [he]
    · intro token htok hne htitle
      refine ⟨?_, ?_⟩
      · intro e evs hbe
        show tool_get_leave_balances env ctx = (.error e, evs)
        unfold tool_get_leave_balances
        rw [htok]
        dsimp only
        rw [hbe]
      · intro wc evs hbo
        show ∃ bevs, (tool_get_leave_balances env ctx).2 = evs ++ bevs
        unfold tool_get_leave_balances
        rw [htok]
        dsimp only
        rw [hbo]
        dsimp only
        repeat' split
        all_goals first | exact ⟨_, rfl⟩ | exact ⟨[], by simp⟩
  · -- get_direct_reports
    refine ⟨?_, ?_⟩
    · intro e he
      show tool_get_direct_reports env ctx = (.error e, [])
      unfold tool_get_direct_reports
      rw [he]
    · intro token htok hne htitle
      refine ⟨?_, ?_⟩
      · intro e evs hbe
        show tool_get_direct_reports env ctx = (.error e, evs)
        unfold tool_get_direct_reports
        rw [htok]
        dsimp only
        rw [hbe]
      · intro wc evs hbo
        show ∃ bevs, (tool_get_direct_reports env ctx).2 = evs ++ bevs
        unfold tool_get_direct_reports
        rw [htok]
        dsimp only
        rw [hbo]
        dsimp only
        repeat' split
        all_goals first | exact ⟨_, rfl⟩ | exact ⟨[], by simp⟩
  · -- get_inbox_tasks
    refine ⟨?_, ?_⟩
    · intro e he
      show tool_get_inbox_tasks env ctx = (.error e, [])
      unfold tool_get_inbox_tasks
      rw [he]
    · intro token htok hne htitle
      refine ⟨?_, ?_⟩
      · intro e evs hbe
        show tool_get_inbox_tasks env ctx = (.error e, evs)
        unfold tool_get_inbox_tasks
        rw [htok]
        dsimp only
        rw [hbe]
      · intro wc evs hbo
        show ∃ bevs, (tool_get_inbox_tasks env ctx).2 = evs ++ bevs
        unfold tool_get_inbox_tasks
        rw [htok]
        dsimp only
        rw [hbo]
        dsimp only
        repeat' split
        all_goals first | exact ⟨_, rfl⟩ | exact ⟨[], by simp⟩
  · -- get_learning_assignments
    refine ⟨?_, ?_⟩
    · intro e he
      show tool_get_learning_assignments env ctx = (.error e, [])
      unfold tool_get_learning_assignments
      rw [he]
    · intro token htok hne htitle
      refine ⟨?_, ?_⟩
      · intro e evs hbe
        show tool_get_learning_assignments env ctx = (.error e, evs)
        unfold tool_get_learning_assignments
        rw [htok]
        dsimp only
        rw [hbe]
      · intro wc evs hbo
        show ∃ bevs, (tool_get_learning_assignments env ctx).2 = evs ++ bevs
        unfold tool_get_learning_assignments
        rw [htok]
        dsimp only
        rw [hbo]
        dsimp only
        repeat' split
        all_goals first | exact ⟨_, rfl⟩ | exact ⟨[], by simp⟩
  · -- get_pay_slips
    refine ⟨?_, ?_⟩
    · intro e he
      show tool_get_pay_slips env ctx = (.error e, [])
      unfold tool_get_pay_slips
      rw [he]
    · intro token htok hne htitle
      refine ⟨?_, ?_⟩
      · intro e evs hbe
        show tool_get_pay_slips env ctx = (.error e, evs)
        unfold tool_get_pay_slips
        rw [htok]
        dsimp only
        rw [hbe]
      · intro wc evs hbo
        show ∃ bevs, (tool_get_pay_slips env ctx).2 = evs ++ bevs
        unfold tool_get_pay_slips
        rw [htok]
        dsimp only
        rw [hbo]
        dsimp only
        repeat' split
        all_goals first | exact ⟨_, rfl⟩ | exact ⟨[], by simp⟩
  · -- get_time_off_entries
    refine ⟨?_, ?_⟩
    · intro e he
      show tool_get_time_off_entries env ctx = (.error e, [])
      unfold tool_get_time_off_entries
      rw [he]
    · intro token htok hne htitle
      refine ⟨?_, ?_⟩
      · intro e evs hbe
        show tool_get_time_off_entries env ctx = (.error e, evs)
        unfold tool_get_time_off_entries
        rw [htok]
        dsimp only
        rw [hbe]
      · intro wc evs hbo
        show ∃ bevs, (tool_get_time_off_entries env ctx).2 = evs ++ bevs
        unfold tool_get_time_off_entries
        rw [htok]
        dsimp only
        rw [hbo]
        dsimp only
        repeat' split
        all_goals first | exact ⟨_, rfl⟩ | exact ⟨[], by simp⟩
  · -- prepare_request_leave
    refine ⟨?_, ?_⟩
    · intro e he
      show tool_prepare_request_leave env ctx args.startDate args.endDate args.quantity
        args.unit args.reason = (.error e, [])
      unfold tool_prepare_request_leave
      rw [he]
    · intro token htok hne htitle
      refine ⟨?_, ?_⟩
      · intro e evs hbe
        show tool_prepare_request_leave env ctx args.startDate args.endDate args.quantity
          args.unit args.reason = (.error e, evs)
        unfold tool_prepare_request_leave
        rw [htok]
        dsimp only
        rw [hbe]
      · intro wc evs hbo
        show ∃ bevs, (tool_prepare_request_leave env ctx args.startDate args.endDate
          args.quantity args.unit args.reason).2 = evs ++ bevs
        unfold tool_prepare_request_leave
        rw [htok]
        dsimp only
        rw [hbo]
        dsimp only
        repeat' split
        all_goals first | exact ⟨_, rfl⟩ | exact ⟨[], by simp⟩
  · -- book_leave
    refine ⟨?_, ?_⟩
    · intro e he
      show tool_book_leave env ctx args.startDate args.endDate args.timeOffTypeId
        (args.quantity.getD "8") (args.unit.getD "Hours")
        (args.reason.getD "Time off request") = (.error e, [])
      unfold tool_book_leave
      rw [he]
    · intro token htok hne htitle
      refine ⟨?_, ?_⟩
      · intro e evs hbe
        show tool_book_leave env ctx args.startDate args.endDate args.timeOffTypeId
          (args.quantity.getD "8") (args.unit.getD "Hours")
          (args.reason.getD "Time off request") = (.error e, evs)
        unfold tool_book_leave
        rw [htok]
        dsimp only
        rw [hbe]
      · intro wc evs hbo
        show ∃ bevs, (tool_book_leave env ctx args.startDate args.endDate args.timeOffTypeId
          (args.quantity.getD "8") (args.unit.getD "Hours")
          (args.reason.getD "Time off request")).2 = evs ++ bevs
        unfold tool_book_leave
        rw [htok]
        dsimp only
        rw [hbo]
        dsimp only
        repeat' split
        all_goals first | exact ⟨_, rfl⟩ | exact ⟨[], by simp⟩ | exact ⟨[.timeOffPost], by simp⟩
  · -- change_business_title
    refine ⟨?_, ?_⟩
    · intro e he
      show tool_change_business_title env ctx args.proposedBusinessTitle = (.error e, [])
      unfold tool_change_business_title
      rw [he]
    · intro token htok hne htitle
      have htr : truthyOS args.proposedBusinessTitle = true := htitle rfl
      refine ⟨?_, ?_⟩
      · intro e evs hbe
        show tool_change_business_title env ctx args.proposedBusinessTitle = (.error e, evs)
        unfold tool_change_business_title
        rw [htok]
        dsimp only
        rw [if_neg (by simp [htr]), hbe]
      · intro wc evs hbo
        show ∃ bevs, (tool_change_business_title env ctx args.proposedBusinessTitle).2 =
          evs ++ bevs
        unfold tool_change_business_title
        rw [htok]
        dsimp only
        rw [if_neg (by simp [htr]), hbo]
        dsimp only
        repeat' split
        all_goals first | exact ⟨_, rfl⟩ | exact ⟨[], by simp⟩
  · -- search_learning_content
    refine ⟨?_, ?_⟩
    · intro e he
      show tool_search_learning_content env ctx args.skills args.topics = (.error e, [])
      unfold tool_search_learning_content
      rw [he]
    · intro token htok hne htitle
      exact absurd rfl hne

/-- Witness for C2 (amended): a call with no HTTP context is rejected by
the first registered tool with the credential error and no network
traffic. -/
theorem claim_C2_witness :
    tool_get_worker env_ok none =
      (.error (.valueError "HTTP context not available; provide Authorization header"), []) :=
  (claim_C2
    { name := "get_worker"
      summary := "Get the current Workday worker profile."
      run := fun env ctx _ => tool_get_worker env ctx }
    (by unfold WORKDAY_TOOL_SPECS; exact List.Mem.head _)
    env_ok none { }).1 _ rfl
